import Mathlib

/-!
Verification of the neuromonitor pharmacokinetic / neurochemical-state engine.

Shallow embedding of the TypeScript sources:
  src/types/index.ts            (data model)
  src/data/substances.ts        (catalog, dose→PK resolver)
  src/data/neurotransmitters.ts (default neurotransmitter systems)
  src/engine/pharmacokinetics.ts(decay, effectiveness, impacts, clearance,
                                 timeline, tolerance)
  src/store (updateNTLevels / logSubstance state recomputation)

Numbers: catalog data and timestamps are exact rationals (ℚ); quantities that
the source computes with `Math.sin` / `Math.pow` (effectiveness, decay,
receptor impacts, neurotransmitter levels) live in ℝ.  JS `Math.round` is
`round` (both are ⌊x + 1/2⌋); `Math.min`/`Math.max` are `min`/`max`.
-/

namespace NeuroMonitor

/-- interaction types, from `StatusEffectType` in src/types/index.ts -/
inductive InteractionType where
  | agonist
  | antagonist
  | upregulation
  | downregulation
  | modulation
  | precursor
deriving DecidableEq

/-- neurotransmitter status, from `NTStatus` in src/types/index.ts -/
inductive NTStatus where
  | rising
  | falling
  | stable
  | blocked
  | enhanced
deriving DecidableEq

/-- `StatusEffect` from src/types/index.ts.  `magnitude` is an engine-computed
impact (real), `startTime` a unix-ms timestamp. -/
structure StatusEffect where
  type : InteractionType
  source : String
  magnitude : ℝ
  startTime : ℚ

/-- `Receptor` from src/types/index.ts. -/
structure Receptor where
  id : String
  subtype : String
  label : String
  sensitivity : ℝ
  occupancy : ℝ
  statusEffects : List StatusEffect

/-- `ReceptorInteraction` from src/types/index.ts (static catalog data). -/
structure ReceptorInteraction where
  receptorId : String
  ntId : String
  type : InteractionType
  magnitude : ℚ
deriving DecidableEq

/-- `DosePK` from src/types/index.ts: resolved kinetic parameters. -/
structure DosePK where
  halfLife : ℚ
  onsetTime : ℚ
  peakTime : ℚ
  duration : ℚ
  toleranceRate : ℚ
deriving DecidableEq

/-- `Neurotransmitter` from src/types/index.ts.  The circadian rhythm is the
`getLevel` function of the source's `CircadianPattern`.  UI-only fields
(color, icon emoji, description) are omitted. -/
structure Neurotransmitter where
  id : String
  name : String
  abbreviation : String
  baselineLevel : ℚ
  currentLevel : ℝ
  status : NTStatus
  receptors : List Receptor
  circadianRhythm : ℚ → ℚ

/-- `Substance` from src/types/index.ts.  UI-only fields (description,
mechanism, color) are omitted; `category`/`dosageUnit` kept as strings. -/
structure Substance where
  id : String
  name : String
  category : String
  dosageUnit : String
  commonDoses : List ℚ
  defaultPK : DosePK
  getDosePK : ℚ → DosePK
  receptorInteractions : List ReceptorInteraction

/-- `SubstanceLog` from src/types/index.ts. -/
structure SubstanceLog where
  id : String
  substanceId : String
  dosage : ℚ
  timestamp : ℚ
  expectedClearance : ℚ
deriving DecidableEq

-- ── src/data/substances.ts ───────────────────────────────────────────────────

/-- `lerp` from src/data/substances.ts:
`a + (b - a) * Math.max(0, Math.min(1, t))` — the normalized parameter `t`
is clamped to [0,1]. -/
def lerp (a b t : ℚ) : ℚ :=
  a + (b - a) * max 0 (min 1 t)

/-- `r1` from src/data/substances.ts: `Math.round(n * 10) / 10`
(round to one decimal place). -/
def r1 (n : ℚ) : ℚ :=
  ((round (n * 10) : ℤ) : ℚ) / 10

/-- JS `Math.round` (round half toward +∞), which is Mathlib's `round`. -/
def jsRound (n : ℚ) : ℚ :=
  ((round n : ℤ) : ℚ)

/-- Caffeine catalog entry (src/data/substances.ts). -/
def caffeine : Substance where
  id := "caffeine"
  name := "Caffeine"
  category := "Stimulant"
  dosageUnit := "mg"
  commonDoses := [50, 100, 200]
  defaultPK := ⟨5, 15, 45, 10, 5⟩
  getDosePK := fun dose =>
    let t := (dose - 50) / 350
    let halfLife := r1 (lerp 4.5 6.5 t)
    let onsetTime := 15
    let peakTime := jsRound (lerp 40 50 t)
    let duration := r1 (halfLife * 2.2)
    let toleranceRate := 5
    ⟨halfLife, onsetTime, peakTime, duration, toleranceRate⟩
  receptorInteractions :=
    [⟨"a1", "adenosine", .antagonist, 80⟩,
     ⟨"a2a", "adenosine", .antagonist, 70⟩,
     ⟨"d2", "dopamine", .modulation, 20⟩]

/-- L-Theanine catalog entry (src/data/substances.ts). -/
def lTheanine : Substance where
  id := "l-theanine"
  name := "L-Theanine"
  category := "Nootropic"
  dosageUnit := "mg"
  commonDoses := [100, 200, 400]
  defaultPK := ⟨1.1, 30, 50, 4, 1⟩
  getDosePK := fun dose =>
    let t := (dose - 100) / 300
    let halfLife := 1.1
    let onsetTime := jsRound (lerp 35 25 t)
    let peakTime := 50
    let duration := r1 (lerp 3 7 t)
    let toleranceRate := 1
    ⟨halfLife, onsetTime, peakTime, duration, toleranceRate⟩
  receptorInteractions :=
    [⟨"gabaa", "gaba", .agonist, 35⟩,
     ⟨"5ht1a", "serotonin", .modulation, 20⟩,
     ⟨"d1", "dopamine", .modulation, 15⟩]

/-- Nicotine catalog entry (src/data/substances.ts). -/
def nicotine : Substance where
  id := "nicotine"
  name := "Nicotine"
  category := "Stimulant"
  dosageUnit := "mg"
  commonDoses := [1, 2, 4]
  defaultPK := ⟨2, 5, 15, 4, 12⟩
  getDosePK := fun dose =>
    let halfLife := 2
    let onsetTime := 5
    let peakTime := 15
    let t := (dose - 1) / 5
    let duration := r1 (lerp 3.5 5 t)
    let toleranceRate := 12
    ⟨halfLife, onsetTime, peakTime, duration, toleranceRate⟩
  receptorInteractions :=
    [⟨"d1", "dopamine", .agonist, 55⟩,
     ⟨"d2", "dopamine", .agonist, 45⟩]

/-- L-Tyrosine catalog entry (src/data/substances.ts). -/
def lTyrosine : Substance where
  id := "l-tyrosine"
  name := "L-Tyrosine"
  category := "Nootropic"
  dosageUnit := "mg"
  commonDoses := [250, 500, 1000]
  defaultPK := ⟨2, 30, 90, 5, 2⟩
  getDosePK := fun dose =>
    let t := (dose - 250) / 750
    let halfLife := r1 (lerp 1.8 2.5 t)
    let onsetTime := 30
    let peakTime := jsRound (lerp 75 120 t)
    let duration := r1 (lerp 4 6 t)
    let toleranceRate := 2
    ⟨halfLife, onsetTime, peakTime, duration, toleranceRate⟩
  receptorInteractions :=
    [⟨"d1", "dopamine", .precursor, 40⟩,
     ⟨"d2", "dopamine", .precursor, 35⟩]

/-- Flmodafinil catalog entry (src/data/substances.ts). -/
def flmodafinil : Substance where
  id := "flmodafinil"
  name := "Flmodafinil"
  category := "Stimulant"
  dosageUnit := "mg"
  commonDoses := [25, 50, 100]
  defaultPK := ⟨13, 20, 240, 16, 3⟩
  getDosePK := fun dose =>
    let t := (dose - 25) / 75
    let halfLife := r1 (lerp 12 15 t)
    let onsetTime := jsRound (lerp 15 25 t)
    let peakTime := jsRound (lerp 180 300 t)
    let duration := r1 (lerp 14 18 t)
    let toleranceRate := 3
    ⟨halfLife, onsetTime, peakTime, duration, toleranceRate⟩
  receptorInteractions :=
    [⟨"d1", "dopamine", .agonist, 50⟩,
     ⟨"a2a", "adenosine", .antagonist, 25⟩,
     ⟨"5ht1a", "serotonin", .modulation, 12⟩]

/-- Bromantane catalog entry (src/data/substances.ts). -/
def bromantane : Substance where
  id := "bromantane"
  name := "Bromantane"
  category := "Nootropic"
  dosageUnit := "mg"
  commonDoses := [25, 50, 100]
  defaultPK := ⟨11, 90, 180, 24, 1⟩
  getDosePK := fun dose =>
    let t := (dose - 25) / 75
    let halfLife := 11
    let onsetTime := 90
    let peakTime := jsRound (lerp 165 210 t)
    let duration := 24
    let toleranceRate := 1
    ⟨halfLife, onsetTime, peakTime, duration, toleranceRate⟩
  receptorInteractions :=
    [⟨"d1", "dopamine", .upregulation, 50⟩,
     ⟨"d2", "dopamine", .upregulation, 45⟩]

/-- Shilajit catalog entry (src/data/substances.ts). -/
def shilajit : Substance where
  id := "shilajit"
  name := "Shilajit"
  category := "Supplement"
  dosageUnit := "mg"
  commonDoses := [250, 500]
  defaultPK := ⟨7, 60, 180, 12, 2⟩
  getDosePK := fun dose =>
    let t := (dose - 250) / 250
    let halfLife := 7
    let onsetTime := 60
    let peakTime := jsRound (lerp 150 210 t)
    let duration := r1 (lerp 10 14 t)
    let toleranceRate := 2
    ⟨halfLife, onsetTime, peakTime, duration, toleranceRate⟩
  receptorInteractions :=
    [⟨"d1", "dopamine", .modulation, 30⟩,
     ⟨"d2", "dopamine", .modulation, 25⟩]

/-- The full catalog `substances` from src/data/substances.ts. -/
def substances : List Substance :=
  [caffeine, lTheanine, nicotine, lTyrosine, flmodafinil, bromantane, shilajit]

/-- Lookup by id, modelling `substanceMap.get(id)`
(`substanceMap = new Map(substances.map(s => [s.id, s]))`; catalog ids are
distinct, so the first match is the unique match). -/
def findSubstance (catalog : List Substance) (sid : String) : Option Substance :=
  catalog.find? (fun s => s.id == sid)

-- ── src/data/neurotransmitters.ts ────────────────────────────────────────────

/-- Adenosine circadian rhythm `getLevel` (src/data/neurotransmitters.ts). -/
def adenosineCirc (hour : ℚ) : ℚ :=
  if 23 ≤ hour ∨ hour < 7 then 10
  else min (10 + (hour - 7) * 5.6) 100

/-- Dopamine circadian rhythm `getLevel` (src/data/neurotransmitters.ts). -/
def dopamineCirc (hour : ℚ) : ℚ :=
  if 23 ≤ hour ∨ hour < 7 then 40
  else if 7 ≤ hour ∧ hour < 10 then 40 + ((hour - 7) / 3) * 30
  else if 10 ≤ hour ∧ hour < 14 then 70
  else if 14 ≤ hour ∧ hour < 18 then 70 - ((hour - 14) / 4) * 20
  else 50 - ((hour - 18) / 5) * 10

/-- Serotonin circadian rhythm `getLevel` (src/data/neurotransmitters.ts). -/
def serotoninCirc (hour : ℚ) : ℚ :=
  if 22 ≤ hour ∨ hour < 6 then 35
  else if 6 ≤ hour ∧ hour < 12 then 35 + ((hour - 6) / 6) * 35
  else if 12 ≤ hour ∧ hour < 16 then 70
  else 70 - ((hour - 16) / 6) * 35

/-- GABA circadian rhythm `getLevel` (src/data/neurotransmitters.ts). -/
def gabaCirc (hour : ℚ) : ℚ :=
  if 22 ≤ hour ∨ hour < 6 then 75
  else if 6 ≤ hour ∧ hour < 10 then 75 - ((hour - 6) / 4) * 30
  else if 10 ≤ hour ∧ hour < 18 then 45
  else 45 + ((hour - 18) / 4) * 30

/-- Adenosine system (src/data/neurotransmitters.ts). -/
def adenosineNT : Neurotransmitter where
  id := "adenosine"
  name := "Adenosine"
  abbreviation := "ADO"
  baselineLevel := 20
  currentLevel := 20
  status := .rising
  receptors :=
    [⟨"a1", "A1", "A1 (Sleep Pressure)", 100, 20, []⟩,
     ⟨"a2a", "A2A", "A2A (Alertness)", 100, 20, []⟩]
  circadianRhythm := adenosineCirc

/-- Dopamine system (src/data/neurotransmitters.ts). -/
def dopamineNT : Neurotransmitter where
  id := "dopamine"
  name := "Dopamine"
  abbreviation := "DA"
  baselineLevel := 60
  currentLevel := 60
  status := .stable
  receptors :=
    [⟨"d1", "D1", "D1 (Motivation)", 100, 50, []⟩,
     ⟨"d2", "D2", "D2 (Reward)", 100, 50, []⟩]
  circadianRhythm := dopamineCirc

/-- Serotonin system (src/data/neurotransmitters.ts). -/
def serotoninNT : Neurotransmitter where
  id := "serotonin"
  name := "Serotonin"
  abbreviation := "5-HT"
  baselineLevel := 55
  currentLevel := 55
  status := .stable
  receptors :=
    [⟨"5ht1a", "5-HT1A", "5-HT1A (Mood)", 100, 50, []⟩,
     ⟨"5ht2a", "5-HT2A", "5-HT2A (Perception)", 100, 50, []⟩]
  circadianRhythm := serotoninCirc

/-- GABA system (src/data/neurotransmitters.ts). -/
def gabaNT : Neurotransmitter where
  id := "gaba"
  name := "GABA"
  abbreviation := "GABA"
  baselineLevel := 50
  currentLevel := 50
  status := .stable
  receptors :=
    [⟨"gabaa", "GABA-A", "GABA-A (Fast Inhibition)", 100, 50, []⟩,
     ⟨"gabab", "GABA-B", "GABA-B (Slow Inhibition)", 100, 50, []⟩]
  circadianRhythm := gabaCirc

/-- `defaultNeurotransmitters` from src/data/neurotransmitters.ts. -/
def defaultNeurotransmitters : List Neurotransmitter :=
  [adenosineNT, dopamineNT, serotoninNT, gabaNT]

-- ── src/engine/pharmacokinetics.ts ───────────────────────────────────────────

/-- `calculateDecay` (src/engine/pharmacokinetics.ts):
`elapsedHours < 0 ? 0 : dose * Math.pow(0.5, elapsedHours / halfLife)`. -/
noncomputable def calculateDecay (dose halfLife elapsedHours : ℝ) : ℝ :=
  if elapsedHours < 0 then 0
  else dose * (0.5 : ℝ) ^ (elapsedHours / halfLife)

/-- `calculateActiveLevel` (src/engine/pharmacokinetics.ts): the onset-ramp
variant that also uses the `onsetTime` steepness parameter.  Not used by the
snapshot path (`getEffectiveness` is); included for completeness. -/
noncomputable def calculateActiveLevel (dose : ℝ) (pk : DosePK) (elapsedMinutes : ℚ) : ℝ :=
  if elapsedMinutes < 0 then 0
  else if elapsedMinutes ≤ pk.peakTime then
    if pk.peakTime = 0 then dose
    else
      let progress : ℚ := elapsedMinutes / pk.peakTime
      let ramp : ℝ :=
        if 0 < pk.onsetTime then
          Real.sin ((Real.pi / 2) * ((min (progress * (pk.peakTime / pk.onsetTime)) 1 : ℚ) : ℝ))
        else (progress : ℝ)
      dose * ramp
  else
    calculateDecay dose ((pk.halfLife * 60 / 60 : ℚ) : ℝ)
      (((elapsedMinutes - pk.peakTime) / 60 : ℚ) : ℝ)

/-- `getEffectiveness` (src/engine/pharmacokinetics.ts): effectiveness in
[0,100] of a log at wall-clock time `nowMs`, using the kinetics resolved at
the log's dosage.  The source computes `Math.min(progress, 1)` on floats;
here the min is taken in ℚ and then cast (casts commute with `min`). -/
noncomputable def getEffectiveness (log : SubstanceLog) (substance : Substance)
    (nowMs : ℚ) : ℝ :=
  let elapsedMinutes : ℚ := (nowMs - log.timestamp) / (1000 * 60)
  if elapsedMinutes < 0 then 0
  else
    let pk := substance.getDosePK log.dosage
    if elapsedMinutes ≤ pk.peakTime then
      let progress : ℚ := if 0 < pk.peakTime then elapsedMinutes / pk.peakTime else 1
      Real.sin ((Real.pi / 2) * ((min progress 1 : ℚ) : ℝ)) * 100
    else
      calculateDecay 100 ((pk.halfLife : ℚ) : ℝ)
        (((elapsedMinutes - pk.peakTime) / 60 : ℚ) : ℝ)

/-- Lookup in an insertion-ordered association list, modelling `Map.get`. -/
noncomputable def mapGet (m : List (String × ℝ)) (k : String) : Option ℝ :=
  (m.find? (fun p => p.1 == k)).map (fun p => p.2)

/-- Update/insert in an insertion-ordered association list, modelling
`Map.set` (JS `Map.set` overwrites in place, else appends). -/
noncomputable def mapSet (m : List (String × ℝ)) (k : String) (v : ℝ) :
    List (String × ℝ) :=
  if m.any (fun p => p.1 == k) then
    m.map (fun p => if p.1 == k then (k, v) else p)
  else m ++ [(k, v)]

/-- `calculateReceptorImpact` (src/engine/pharmacokinetics.ts): per-receptor
effective magnitude; same-receptor contributions of the one interaction list
are accumulated, each insertion capped at 100. -/
noncomputable def calculateReceptorImpact (interactions : List ReceptorInteraction)
    (effectivenessPercent : ℝ) : List (String × ℝ) :=
  interactions.foldl
    (fun impact i =>
      let effectiveMagnitude := (i.magnitude : ℝ) * effectivenessPercent / 100
      let current := (mapGet impact i.receptorId).getD 0
      mapSet impact i.receptorId (min (current + effectiveMagnitude) 100))
    []

/-- `calculateClearanceTime` (src/engine/pharmacokinetics.ts): duration (ms)
until <5% remains, `pk.halfLife * 4.3 * 60 * 60 * 1000`. -/
def calculateClearanceTime (substance : Substance) (dose : ℚ) : ℚ :=
  (substance.getDosePK dose).halfLife * 4.3 * 60 * 60 * 1000

/-- `generateTimeline` (src/engine/pharmacokinetics.ts): the source loop
`for (let m = 0; m <= totalMinutes; m += intervalMinutes)` visits the
multiples `m = k·intervalMinutes`; for `intervalMinutes > 0` and
`totalMinutes ≥ 0` those are exactly `k = 0 … ⌊totalMinutes/intervalMinutes⌋`
(for a non-positive interval the source loop would not terminate; such calls
are outside the engine's contract and modelled as the empty timeline). -/
noncomputable def generateTimeline (log : SubstanceLog) (substance : Substance)
    (intervalMinutes : ℚ) : List (ℚ × ℝ) :=
  let pk := substance.getDosePK log.dosage
  let totalMinutes := pk.duration * 60
  let count : ℕ :=
    if 0 < intervalMinutes ∧ 0 ≤ totalMinutes then
      (⌊totalMinutes / intervalMinutes⌋).toNat + 1
    else 0
  (List.range count).map (fun (k : ℕ) =>
    let m : ℚ := (k : ℚ) * intervalMinutes
    let timeMs := log.timestamp + m * 60 * 1000
    (timeMs, getEffectiveness log substance timeMs))

/-- Stable insertion of a log into a list sorted ascending by timestamp. -/
def insertLog (x : SubstanceLog) : List SubstanceLog → List SubstanceLog
  | [] => [x]
  | y :: ys => if y.timestamp < x.timestamp then y :: insertLog x ys else x :: y :: ys

/-- Stable ascending sort by timestamp, modelling
`.sort((a, b) => a.timestamp - b.timestamp)` (JS `Array.prototype.sort` is
stable). -/
def sortLogsByTimestamp : List SubstanceLog → List SubstanceLog
  | [] => []
  | x :: xs => insertLog x (sortLogsByTimestamp xs)

/-- `calculateTolerance` (src/engine/pharmacokinetics.ts).  The source keys
usage days by the local-timezone `(getFullYear, getMonth, getDate)` triple of
each timestamp; that environment-dependent calendar computation is abstracted
as the `dayKey` parameter (any function assigning each timestamp its local
calendar day).  Everything else is verbatim: trailing-window filter
`timestamp > now - 7 days`, distinct-day count, tolerance rate resolved at
the dosage of the most recent kept log, `Math.max(100 - loss, 10)`. -/
def calculateTolerance (dayKey : ℚ → ℤ) (logs : List SubstanceLog)
    (substance : Substance) (nowMs : ℚ) : ℚ :=
  let sevenDaysAgo := nowMs - 7 * 24 * 60 * 60 * 1000
  let recentLogs := sortLogsByTimestamp
    (logs.filter (fun l => l.substanceId == substance.id && decide (sevenDaysAgo < l.timestamp)))
  if recentLogs.isEmpty then 100
  else
    let daySet := (recentLogs.map (fun l => dayKey l.timestamp)).dedup
    let consecutiveDays : ℚ := (daySet.length : ℚ)
    let lastDose := ((recentLogs.getLast?).map (fun l => l.dosage)).getD 0
    let pk := substance.getDosePK lastDose
    let toleranceLoss := consecutiveDays * pk.toleranceRate
    max (100 - toleranceLoss) 10

-- ── store: updateNTLevels / logSubstance ─────────────────────────────────────

/-- The engine-relevant part of the zustand store state (neurotransmitters
snapshot and caller-owned log history; UI fields omitted). -/
structure NeuroState where
  neurotransmitters : List Neurotransmitter
  substanceLogs : List SubstanceLog

/-- Reset step of `updateNTLevels`: rebuild one neurotransmitter from its
circadian baseline — `currentLevel = circadian(hour)`, each receptor's
occupancy rescaled by its original baseline occupancy ratio, sensitivity 100,
status effects cleared, status `stable`. -/
noncomputable def resetNT (hour : ℚ) (nt : Neurotransmitter) : Neurotransmitter :=
  { nt with
    currentLevel := ((nt.circadianRhythm hour : ℚ) : ℝ)
    receptors := nt.receptors.map (fun r =>
      { r with
        occupancy := ((nt.circadianRhythm hour : ℚ) : ℝ) * (r.occupancy / ((nt.baselineLevel : ℚ) : ℝ))
        sensitivity := 100
        statusEffects := [] })
    status := .stable }

/-- One step of the inner receptor loop of `updateNTLevels`, for one
neurotransmitter, one active log and one receptor: the accumulator carries
the neurotransmitter's `currentLevel`, its `status` and the receptors
already walked, exactly as the source mutates them in place.  If the
receptor has a recorded impact, a `StatusEffect` is appended and the
interaction-type rule table applied. -/
noncomputable def ntStep (substance : Substance) (impacts : List (String × ℝ))
    (log : SubstanceLog) (acc : ℝ × NTStatus × List Receptor)
    (receptor : Receptor) : ℝ × NTStatus × List Receptor :=
  let level := acc.1
  let status := acc.2.1
  let done := acc.2.2
  match mapGet impacts receptor.id with
  | none => (level, status, done ++ [receptor])
  | some impact =>
    match substance.receptorInteractions.find? (fun i => i.receptorId == receptor.id) with
    | none => (level, status, done ++ [receptor])
    | some interaction =>
      let receptor' := { receptor with
        statusEffects := receptor.statusEffects ++
          [⟨interaction.type, substance.name, impact, log.timestamp⟩] }
      match interaction.type with
      | .agonist | .precursor =>
          (min (level + impact * 0.3) 100, .enhanced, done ++ [receptor'])
      | .antagonist =>
          (max (level - impact * 0.3) 0, .blocked, done ++ [receptor'])
      | .upregulation =>
          (level, .enhanced, done ++
            [{ receptor' with sensitivity := min (receptor'.sensitivity + impact * 0.2) 150 }])
      | .downregulation =>
          (level, .falling, done ++
            [{ receptor' with sensitivity := max (receptor'.sensitivity - impact * 0.2) 20 }])
      | .modulation =>
          (min (level + impact * 0.15) 100,
           if status = NTStatus.stable then .enhanced else status,
           done ++ [receptor'])

/-- Inner receptor loop of `updateNTLevels` for one neurotransmitter and one
active log: fold `ntStep` over the receptors in order. -/
noncomputable def applyImpactsToNT (substance : Substance)
    (impacts : List (String × ℝ)) (log : SubstanceLog)
    (nt : Neurotransmitter) : Neurotransmitter :=
  let res := nt.receptors.foldl (ntStep substance impacts log)
    (nt.currentLevel, nt.status, [])
  { nt with currentLevel := res.1, status := res.2.1, receptors := res.2.2 }

/-- One active log's application in `updateNTLevels`: unknown substance ids
are skipped silently, effectiveness below 1 is treated as negligible,
otherwise the per-receptor impacts are applied to every system. -/
noncomputable def applyLog (catalog : List Substance) (nowMs : ℚ)
    (state : List Neurotransmitter) (log : SubstanceLog) : List Neurotransmitter :=
  match findSubstance catalog log.substanceId with
  | none => state
  | some substance =>
    let effectiveness := getEffectiveness log substance nowMs
    if effectiveness < 1 then state
    else
      let impacts := calculateReceptorImpact substance.receptorInteractions effectiveness
      state.map (applyImpactsToNT substance impacts log)

/-- The snapshot recomputation inside `updateNTLevels`: reset every system to
its circadian baseline, select active logs (`expectedClearance > now`), apply
them in log order.  The source reads the substance catalog from the
module-level `substanceMap`; it is a parameter here (instantiated with
`substances` by the store wrapper below). -/
noncomputable def recompute (catalog : List Substance) (nowMs hour : ℚ)
    (logs : List SubstanceLog) : List Neurotransmitter :=
  let updated := defaultNeurotransmitters.map (resetNT hour)
  let activeLogs := logs.filter (fun l => decide (nowMs < l.expectedClearance))
  activeLogs.foldl (applyLog catalog nowMs) updated

/-- `updateNTLevels` store action: replaces the snapshot with the recomputed
one; `nowMs`/`hour` model `Date.now()` and `getCurrentHour()`. -/
noncomputable def updateNTLevels (state : NeuroState) (nowMs hour : ℚ) : NeuroState :=
  { state with neurotransmitters := recompute substances nowMs hour state.substanceLogs }

/-- `logSubstance` store action: append a fresh log whose `expectedClearance`
is frozen at creation from the dose-specific half-life, then recompute.
`newId` models the random `generateId()`. -/
noncomputable def logSubstance (state : NeuroState) (newId substanceId : String)
    (dosage : ℚ) (nowMs hour : ℚ) : NeuroState :=
  match findSubstance substances substanceId with
  | none => state
  | some substance =>
    let clearanceMs := calculateClearanceTime substance dosage
    let newLog : SubstanceLog :=
      { id := newId, substanceId := substanceId, dosage := dosage,
        timestamp := nowMs, expectedClearance := nowMs + clearanceMs }
    updateNTLevels { state with substanceLogs := state.substanceLogs ++ [newLog] } nowMs hour

-- ── Helper lemmas ────────────────────────────────────────────────────────────

theorem round_mono_q {x y : ℚ} (h : x ≤ y) : round x ≤ round y := by
  rw [round_eq, round_eq]
  exact Int.floor_mono (by linarith)

theorem r1_mono {x y : ℚ} (h : x ≤ y) : r1 x ≤ r1 y := by
  unfold r1
  have := round_mono_q (show x * 10 ≤ y * 10 by linarith)
  have : ((round (x * 10) : ℤ) : ℚ) ≤ ((round (y * 10) : ℤ) : ℚ) := by exact_mod_cast this
  linarith

theorem jsRound_mono {x y : ℚ} (h : x ≤ y) : jsRound x ≤ jsRound y := by
  unfold jsRound
  exact_mod_cast round_mono_q h

theorem lerp_lower {a b : ℚ} (hab : a ≤ b) (t : ℚ) : a ≤ lerp a b t := by
  unfold lerp
  have h0 : (0 : ℚ) ≤ max 0 (min 1 t) := le_max_left 0 _
  nlinarith

theorem lerp_upper {a b : ℚ} (hab : a ≤ b) (t : ℚ) : lerp a b t ≤ b := by
  unfold lerp
  have h1 : max 0 (min 1 t) ≤ 1 := max_le (by norm_num) (min_le_left 1 t)
  have h0 : (0 : ℚ) ≤ max 0 (min 1 t) := le_max_left 0 _
  nlinarith

theorem lerp_of_one_le {a b t : ℚ} (ht : 1 ≤ t) : lerp a b t = b := by
  unfold lerp
  rw [min_eq_left ht, max_eq_right (by norm_num : (0:ℚ) ≤ 1)]
  ring

theorem lerp_of_nonpos {a b t : ℚ} (ht : t ≤ 0) : lerp a b t = a := by
  unfold lerp
  rw [min_eq_right (ht.trans (by norm_num)), max_eq_left ht]
  ring

/-- `r1` fixes every rational with at most one decimal place. -/
theorem r1_fix {x : ℚ} {n : ℤ} (h : x * 10 = (n : ℚ)) : r1 x = x := by
  rw [r1, h, round_intCast]
  linarith

/-- `jsRound` fixes every integer-valued rational. -/
theorem jsRound_fix {x : ℚ} {n : ℤ} (h : x = (n : ℚ)) : jsRound x = x := by
  rw [jsRound, h, round_intCast]

theorem le_r1_lerp {a b : ℚ} (hab : a ≤ b) (ha : r1 a = a) (t : ℚ) :
    a ≤ r1 (lerp a b t) := by
  calc a = r1 a := ha.symm
    _ ≤ r1 (lerp a b t) := r1_mono (lerp_lower hab t)

theorem r1_lerp_le {a b : ℚ} (hab : a ≤ b) (hb : r1 b = b) (t : ℚ) :
    r1 (lerp a b t) ≤ b := by
  calc r1 (lerp a b t) ≤ r1 b := r1_mono (lerp_upper hab t)
    _ = b := hb

theorem le_jsRound_lerp {a b : ℚ} (hab : a ≤ b) (ha : jsRound a = a) (t : ℚ) :
    a ≤ jsRound (lerp a b t) := by
  calc a = jsRound a := ha.symm
    _ ≤ jsRound (lerp a b t) := jsRound_mono (lerp_lower hab t)

theorem jsRound_lerp_le {a b : ℚ} (hab : a ≤ b) (hb : jsRound b = b) (t : ℚ) :
    jsRound (lerp a b t) ≤ b := by
  calc jsRound (lerp a b t) ≤ jsRound b := jsRound_mono (lerp_upper hab t)
    _ = b := hb

/-- Catalog-wide resolved-kinetics facts: for every substance in the catalog
and every dose, the resolved half-life, peak time and duration are positive
and the tolerance rate is at least 1. -/
theorem getDosePK_facts :
    ∀ s ∈ substances, ∀ d : ℚ,
      0 < (s.getDosePK d).halfLife ∧ 0 < (s.getDosePK d).peakTime ∧
      0 < (s.getDosePK d).duration ∧ 1 ≤ (s.getDosePK d).toleranceRate := by
  intro s hs d
  simp only [substances, List.mem_cons, List.not_mem_nil, or_false] at hs
  rcases hs with rfl | rfl | rfl | rfl | rfl | rfl | rfl
  · -- caffeine
    have hhl : (4.5:ℚ) ≤ r1 (lerp 4.5 6.5 ((d - 50) / 350)) :=
      le_r1_lerp (by norm_num) (r1_fix (show (4.5:ℚ) * 10 = ((45:ℤ):ℚ) by norm_num)) _
    refine ⟨by exact lt_of_lt_of_le (by norm_num) hhl, ?_, ?_, ?_⟩
    · exact lt_of_lt_of_le (by norm_num)
        (le_jsRound_lerp (show (40:ℚ) ≤ 50 by norm_num)
          (jsRound_fix (show (40:ℚ) = ((40:ℤ):ℚ) by norm_num)) _)
    · show (0:ℚ) < r1 (r1 (lerp 4.5 6.5 ((d - 50) / 350)) * 2.2)
      have h99 : (9.9:ℚ) ≤ r1 (lerp 4.5 6.5 ((d - 50) / 350)) * 2.2 := by nlinarith
      calc (0:ℚ) < 9.9 := by norm_num
        _ = r1 9.9 := (r1_fix (show (9.9:ℚ) * 10 = ((99:ℤ):ℚ) by norm_num)).symm
        _ ≤ _ := r1_mono h99
    · exact (by norm_num : (1:ℚ) ≤ 5)
  · -- l-theanine
    refine ⟨by norm_num [lTheanine], by norm_num [lTheanine], ?_, by norm_num [lTheanine]⟩
    exact lt_of_lt_of_le (by norm_num)
      (le_r1_lerp (show (3:ℚ) ≤ 7 by norm_num)
        (r1_fix (show (3:ℚ) * 10 = ((30:ℤ):ℚ) by norm_num)) _)
  · -- nicotine
    refine ⟨by norm_num [nicotine], by norm_num [nicotine], ?_, by norm_num [nicotine]⟩
    exact lt_of_lt_of_le (by norm_num)
      (le_r1_lerp (show (3.5:ℚ) ≤ 5 by norm_num)
        (r1_fix (show (3.5:ℚ) * 10 = ((35:ℤ):ℚ) by norm_num)) _)
  · -- l-tyrosine
    refine ⟨?_, ?_, ?_, by norm_num [lTyrosine]⟩
    · exact lt_of_lt_of_le (by norm_num)
        (le_r1_lerp (show (1.8:ℚ) ≤ 2.5 by norm_num)
        (r1_fix (show (1.8:ℚ) * 10 = ((18:ℤ):ℚ) by norm_num)) _)
    · exact lt_of_lt_of_le (by norm_num)
        (le_jsRound_lerp (show (75:ℚ) ≤ 120 by norm_num)
        (jsRound_fix (show (75:ℚ) = ((75:ℤ):ℚ) by norm_num)) _)
    · exact lt_of_lt_of_le (by norm_num)
        (le_r1_lerp (show (4:ℚ) ≤ 6 by norm_num)
        (r1_fix (show (4:ℚ) * 10 = ((40:ℤ):ℚ) by norm_num)) _)
  · -- flmodafinil
    refine ⟨?_, ?_, ?_, by norm_num [flmodafinil]⟩
    · exact lt_of_lt_of_le (by norm_num)
        (le_r1_lerp (show (12:ℚ) ≤ 15 by norm_num)
        (r1_fix (show (12:ℚ) * 10 = ((120:ℤ):ℚ) by norm_num)) _)
    · exact lt_of_lt_of_le (by norm_num)
        (le_jsRound_lerp (show (180:ℚ) ≤ 300 by norm_num)
        (jsRound_fix (show (180:ℚ) = ((180:ℤ):ℚ) by norm_num)) _)
    · exact lt_of_lt_of_le (by norm_num)
        (le_r1_lerp (show (14:ℚ) ≤ 18 by norm_num)
        (r1_fix (show (14:ℚ) * 10 = ((140:ℤ):ℚ) by norm_num)) _)
  · -- bromantane
    refine ⟨by norm_num [bromantane], ?_, by norm_num [bromantane], by norm_num [bromantane]⟩
    exact lt_of_lt_of_le (by norm_num)
      (le_jsRound_lerp (show (165:ℚ) ≤ 210 by norm_num)
        (jsRound_fix (show (165:ℚ) = ((165:ℤ):ℚ) by norm_num)) _)
  · -- shilajit
    refine ⟨by norm_num [shilajit], ?_, ?_, by norm_num [shilajit]⟩
    · exact lt_of_lt_of_le (by norm_num)
        (le_jsRound_lerp (show (150:ℚ) ≤ 210 by norm_num)
        (jsRound_fix (show (150:ℚ) = ((150:ℤ):ℚ) by norm_num)) _)
    · exact lt_of_lt_of_le (by norm_num)
        (le_r1_lerp (show (10:ℚ) ≤ 14 by norm_num)
        (r1_fix (show (10:ℚ) * 10 = ((100:ℤ):ℚ) by norm_num)) _)

-- ── C1: interpolation outside the calibration anchors ────────────────────────

/-- The interpolation rule as the spec words it (§4.1), for comparison with
the source `lerp`: `t = (dose - low)/(high - low)` is *not* clamped and
`value = low_value + (high_value - low_value) * t`.  The source's `lerp`
clamps `t` to [0,1]; this definition exists to exhibit the difference. -/
def lerpUnclamped (a b t : ℚ) : ℚ :=
  a + (b - a) * t

/-- C1 counterexample: at dose 800 mg — far above caffeine's calibration
anchors (50 mg, 400 mg ⇒ t = 15/7 > 1) — the resolved half-life is exactly
the high-anchor value 6.5 and the resolved peak time exactly the high-anchor
value 50: nothing lies strictly outside the anchor endpoint values.  The
spec's unclamped rule would have produced half-life 8.8 instead.  So the PK
resolver clamps rather than extrapolates, refuting the claim. -/
theorem C1_counterexample :
    (caffeine.getDosePK 800).halfLife = 6.5 ∧
    (caffeine.getDosePK 800).peakTime = 50 ∧
    r1 (lerpUnclamped 4.5 6.5 ((800 - 50) / 350)) = 8.8 ∧
    (6.5 : ℚ) ≠ 8.8 := by
  refine ⟨?_, ?_, ?_, by norm_num⟩
  · show r1 (lerp 4.5 6.5 ((800 - 50) / 350)) = 6.5
    rw [lerp_of_one_le (by norm_num)]
    exact r1_fix (show (6.5:ℚ) * 10 = ((65:ℤ):ℚ) by norm_num)
  · show jsRound (lerp 40 50 ((800 - 50) / 350)) = 50
    rw [lerp_of_one_le (by norm_num)]
    exact jsRound_fix (show (50:ℚ) = ((50:ℤ):ℚ) by norm_num)
  · have harg : lerpUnclamped 4.5 6.5 ((800 - 50) / 350) * 10 + 1 / 2 = 1237 / 14 := by
      rw [lerpUnclamped]; norm_num
    have hf : ⌊(1237 / 14 : ℚ)⌋ = 88 := by
      rw [Int.floor_eq_iff]; norm_num
    rw [r1, round_eq, harg, hf]
    norm_num

/-- C1 (amended): the interpolation parameter `t` *is* clamped to [0,1]:
doses outside the calibration anchor range resolve to the nearest anchor's
value, never strictly outside the two anchor endpoint values — in general
`a ≤ lerp a b t ≤ b` for `a ≤ b`, with `lerp a b t = b` for `t ≥ 1` and
`lerp a b t = a` for `t ≤ 0`; concretely, caffeine's interpolated half-life
always stays in [4.5, 6.5] and its peak time in [40, 50], for every dose. -/
theorem C1_interpolation_clamped :
    (∀ a b t : ℚ, a ≤ b → a ≤ lerp a b t ∧ lerp a b t ≤ b) ∧
    (∀ a b t : ℚ, 1 ≤ t → lerp a b t = b) ∧
    (∀ a b t : ℚ, t ≤ 0 → lerp a b t = a) ∧
    (∀ d : ℚ, 4.5 ≤ (caffeine.getDosePK d).halfLife ∧
      (caffeine.getDosePK d).halfLife ≤ 6.5 ∧
      40 ≤ (caffeine.getDosePK d).peakTime ∧
      (caffeine.getDosePK d).peakTime ≤ 50) := by
  refine ⟨fun a b t hab => ⟨lerp_lower hab t, lerp_upper hab t⟩,
          fun a b t ht => lerp_of_one_le ht,
          fun a b t ht => lerp_of_nonpos ht,
          fun d => ?_⟩
  exact ⟨le_r1_lerp (by norm_num) (r1_fix (show (4.5:ℚ) * 10 = ((45:ℤ):ℚ) by norm_num)) _,
         r1_lerp_le (by norm_num) (r1_fix (show (6.5:ℚ) * 10 = ((65:ℤ):ℚ) by norm_num)) _,
         le_jsRound_lerp (by norm_num) (jsRound_fix (show (40:ℚ) = ((40:ℤ):ℚ) by norm_num)) _,
         jsRound_lerp_le (by norm_num) (jsRound_fix (show (50:ℚ) = ((50:ℤ):ℚ) by norm_num)) _⟩

/-- C1 witness: the amended theorem applied at concrete inputs. -/
theorem C1_interpolation_clamped_witness :
    ((4.5:ℚ) ≤ lerp 4.5 6.5 2 ∧ lerp 4.5 6.5 2 ≤ 6.5) ∧
    lerp 4.5 6.5 2 = 6.5 ∧ lerp 4.5 6.5 (-1) = 4.5 :=
  ⟨C1_interpolation_clamped.1 4.5 6.5 2 (by norm_num),
   C1_interpolation_clamped.2.1 4.5 6.5 2 (by norm_num),
   C1_interpolation_clamped.2.2.1 4.5 6.5 (-1) (by norm_num)⟩

-- ── C4: recompute is deterministic and carries no hidden state ───────────────

/-- C4: recompute is deterministic and stateless.  The snapshot produced by
`updateNTLevels` depends only on `(now, hour, substanceLogs)`: two store
states with the same log history yield the same snapshot whatever their
prior snapshots were, and recomputing after an earlier recompute (at any
other time) gives exactly the state a single recompute would give — no
information survives from the prior call. -/
theorem C4_recompute_stateless (nts1 nts2 : List Neurotransmitter)
    (logs : List SubstanceLog) (now hour now' hour' : ℚ) :
    (updateNTLevels ⟨nts1, logs⟩ now hour).neurotransmitters =
      (updateNTLevels ⟨nts2, logs⟩ now hour).neurotransmitters ∧
    updateNTLevels (updateNTLevels ⟨nts1, logs⟩ now' hour') now hour =
      updateNTLevels ⟨nts1, logs⟩ now hour :=
  ⟨rfl, rfl⟩

-- ── C5: expectedClearance is 4.3 dose-specific half-lives, frozen ────────────

/-- C5: a log created by `logSubstance` at `nowMs` carries
`expectedClearance - timestamp = halfLife(dose) · 4.3 hours` exactly, with
the half-life resolved at that dose; and `updateNTLevels` never touches the
stored logs, so the value frozen at logging time is never recomputed. -/
theorem C5_clearance_frozen :
    (∀ (state : NeuroState) (newId sid : String) (s : Substance),
      findSubstance substances sid = some s →
      ∀ dosage nowMs hour : ℚ,
        (logSubstance state newId sid dosage nowMs hour).substanceLogs =
          state.substanceLogs ++
            [{ id := newId, substanceId := sid, dosage := dosage, timestamp := nowMs,
               expectedClearance :=
                 nowMs + (s.getDosePK dosage).halfLife * 4.3 * 60 * 60 * 1000 }] ∧
        (nowMs + (s.getDosePK dosage).halfLife * 4.3 * 60 * 60 * 1000) - nowMs =
          (s.getDosePK dosage).halfLife * (43 / 10) * (60 * 60 * 1000)) ∧
    (∀ (state : NeuroState) (nowMs hour : ℚ),
      (updateNTLevels state nowMs hour).substanceLogs = state.substanceLogs) := by
  constructor
  · intro state newId sid s hfind dosage nowMs hour
    constructor
    · unfold logSubstance
      rw [hfind]
      rfl
    · have h43 : (4.3 : ℚ) = 43 / 10 := by norm_num
      rw [h43]
      ring
  · intro state nowMs hour
    rfl

/-- C5 witness: a caffeine log at dose 100 and time 0. -/
theorem C5_clearance_frozen_witness :
    (logSubstance ⟨defaultNeurotransmitters, []⟩ ("log1") ("caffeine") 100 0 12).substanceLogs =
      [] ++ [{ id := "log1", substanceId := "caffeine", dosage := 100, timestamp := 0,
               expectedClearance :=
                 (0:ℚ) + (caffeine.getDosePK 100).halfLife * 4.3 * 60 * 60 * 1000 }] ∧
    ((0:ℚ) + (caffeine.getDosePK 100).halfLife * 4.3 * 60 * 60 * 1000) - 0 =
      (caffeine.getDosePK 100).halfLife * (43 / 10) * (60 * 60 * 1000) :=
  C5_clearance_frozen.1 ⟨defaultNeurotransmitters, []⟩ ("log1") ("caffeine") caffeine
    (by rfl) 100 0 12

-- ── Effectiveness curve analysis ─────────────────────────────────────────────

theorem sin_ramp_nonneg {c : ℚ} (h0 : 0 ≤ c) (h1 : c ≤ 1) :
    0 ≤ Real.sin ((Real.pi / 2) * (c : ℝ)) * 100 := by
  have hc0 : (0:ℝ) ≤ (c : ℝ) := by exact_mod_cast h0
  have hc1 : (c : ℝ) ≤ 1 := by exact_mod_cast h1
  have hpi := Real.pi_pos
  apply mul_nonneg _ (by norm_num)
  apply Real.sin_nonneg_of_nonneg_of_le_pi
  · positivity
  · nlinarith

theorem sin_ramp_le_100 (x : ℝ) : Real.sin x * 100 ≤ 100 := by
  nlinarith [Real.sin_le_one x]

theorem sin_ramp_mono {c d : ℚ} (h0 : 0 ≤ c) (hcd : c ≤ d) (h1 : d ≤ 1) :
    Real.sin ((Real.pi / 2) * (c : ℝ)) * 100 ≤ Real.sin ((Real.pi / 2) * (d : ℝ)) * 100 := by
  have hc0 : (0:ℝ) ≤ (c : ℝ) := by exact_mod_cast h0
  have hcd' : (c : ℝ) ≤ (d : ℝ) := by exact_mod_cast hcd
  have hd1 : (d : ℝ) ≤ 1 := by exact_mod_cast h1
  have hpi := Real.pi_pos
  have hs := Real.sin_le_sin_of_le_of_le_pi_div_two
    (show -(Real.pi / 2) ≤ (Real.pi / 2) * (c : ℝ) by nlinarith)
    (show (Real.pi / 2) * (d : ℝ) ≤ Real.pi / 2 by nlinarith)
    (by nlinarith)
  nlinarith

theorem sin_ramp_one : Real.sin ((Real.pi / 2) * ((1:ℚ) : ℝ)) * 100 = 100 := by
  norm_num [Real.sin_pi_div_two]

theorem calculateDecay_nonneg {dose halfLife e : ℝ} (hd : 0 ≤ dose) :
    0 ≤ calculateDecay dose halfLife e := by
  unfold calculateDecay
  split_ifs
  · exact le_refl 0
  · exact mul_nonneg hd (Real.rpow_pos_of_pos (by norm_num) _).le

theorem calculateDecay_le_dose {dose halfLife e : ℝ} (hd : 0 ≤ dose)
    (hhl : 0 < halfLife) (he : 0 ≤ e) :
    calculateDecay dose halfLife e ≤ dose := by
  unfold calculateDecay
  split_ifs
  · exact hd
  · have h1 : (0.5 : ℝ) ^ (e / halfLife) ≤ 1 :=
      Real.rpow_le_one (by norm_num) (by norm_num) (div_nonneg he hhl.le)
    nlinarith

theorem calculateDecay_antitone {dose halfLife e1 e2 : ℝ} (hd : 0 ≤ dose)
    (hhl : 0 < halfLife) (h12 : e1 ≤ e2) (h1 : 0 ≤ e1) :
    calculateDecay dose halfLife e2 ≤ calculateDecay dose halfLife e1 := by
  unfold calculateDecay
  rw [if_neg (not_lt.2 h1), if_neg (not_lt.2 (h1.trans h12))]
  apply mul_le_mul_of_nonneg_left _ hd
  exact Real.rpow_le_rpow_of_exponent_ge (by norm_num) (by norm_num)
    ((div_le_div_iff_of_pos_right hhl).2 h12)

/-- Branch-level unfolding of `getEffectiveness`. -/
theorem getEffectiveness_def (log : SubstanceLog) (s : Substance) (now : ℚ) :
    getEffectiveness log s now =
      if (now - log.timestamp) / (1000 * 60) < 0 then 0
      else if (now - log.timestamp) / (1000 * 60) ≤ (s.getDosePK log.dosage).peakTime then
        Real.sin ((Real.pi / 2) *
          ((min (if 0 < (s.getDosePK log.dosage).peakTime then
              (now - log.timestamp) / (1000 * 60) / (s.getDosePK log.dosage).peakTime
            else 1) 1 : ℚ) : ℝ)) * 100
      else
        calculateDecay 100 (((s.getDosePK log.dosage).halfLife : ℚ) : ℝ)
          ((((now - log.timestamp) / (1000 * 60) - (s.getDosePK log.dosage).peakTime) / 60 : ℚ) : ℝ) :=
  rfl

theorem getEffectiveness_nonneg (log : SubstanceLog) (s : Substance) (now : ℚ) :
    0 ≤ getEffectiveness log s now := by
  rw [getEffectiveness_def]
  set P := (s.getDosePK log.dosage).peakTime with hP
  set e : ℚ := (now - log.timestamp) / (1000 * 60) with he
  by_cases h1 : e < 0
  · rw [if_pos h1]
  · rw [if_neg h1]
    by_cases h2 : e ≤ P
    · rw [if_pos h2]
      apply sin_ramp_nonneg _ (min_le_right _ _)
      apply le_min _ zero_le_one
      split_ifs with h3
      · exact div_nonneg (not_lt.1 h1) h3.le
      · exact zero_le_one
    · rw [if_neg h2]
      exact calculateDecay_nonneg (by norm_num)

theorem getEffectiveness_le_100 (log : SubstanceLog) (s : Substance) (now : ℚ)
    (hhl : 0 < (s.getDosePK log.dosage).halfLife) :
    getEffectiveness log s now ≤ 100 := by
  rw [getEffectiveness_def]
  set P := (s.getDosePK log.dosage).peakTime with hP
  set e : ℚ := (now - log.timestamp) / (1000 * 60) with he
  by_cases h1 : e < 0
  · rw [if_pos h1]; norm_num
  · rw [if_neg h1]
    by_cases h2 : e ≤ P
    · rw [if_pos h2]
      exact sin_ramp_le_100 _
    · rw [if_neg h2]
      apply calculateDecay_le_dose (by norm_num)
      · exact_mod_cast hhl
      · have : (0:ℚ) ≤ (e - P) / 60 :=
          div_nonneg (by linarith [not_le.1 h2]) (by norm_num)
        exact_mod_cast this

theorem getEffectiveness_of_le_timestamp (log : SubstanceLog) (s : Substance)
    (hpk : 0 < (s.getDosePK log.dosage).peakTime) (now : ℚ) (h : now ≤ log.timestamp) :
    getEffectiveness log s now = 0 := by
  rw [getEffectiveness_def]
  set P := (s.getDosePK log.dosage).peakTime with hP
  by_cases h1 : (now - log.timestamp) / (1000 * 60) < 0
  · rw [if_pos h1]
  · rw [if_neg h1]
    have he0 : (now - log.timestamp) / (1000 * 60) = 0 :=
      le_antisymm (div_nonpos_of_nonpos_of_nonneg (by linarith) (by norm_num)) (not_lt.1 h1)
    rw [he0, if_pos hpk.le, if_pos hpk, zero_div,
      min_eq_left (show (0:ℚ) ≤ 1 by norm_num)]
    norm_num

theorem getEffectiveness_at_peak (log : SubstanceLog) (s : Substance)
    (hpk : 0 < (s.getDosePK log.dosage).peakTime) :
    getEffectiveness log s
      (log.timestamp + (s.getDosePK log.dosage).peakTime * (1000 * 60)) = 100 := by
  rw [getEffectiveness_def]
  have he : (log.timestamp + (s.getDosePK log.dosage).peakTime * (1000 * 60) - log.timestamp) /
      (1000 * 60) = (s.getDosePK log.dosage).peakTime := by
    field_simp
  rw [he, if_neg (not_lt.2 hpk.le), if_pos (le_refl _), if_pos hpk,
    div_self (ne_of_gt hpk), min_self]
  exact sin_ramp_one

theorem getEffectiveness_monotoneOn (log : SubstanceLog) (s : Substance)
    (hpk : 0 < (s.getDosePK log.dosage).peakTime) :
    MonotoneOn (getEffectiveness log s)
      (Set.Icc log.timestamp
        (log.timestamp + (s.getDosePK log.dosage).peakTime * (1000 * 60))) := by
  set P := (s.getDosePK log.dosage).peakTime with hP
  intro n1 hn1 n2 hn2 h12
  obtain ⟨hn1l, hn1r⟩ := hn1
  obtain ⟨hn2l, hn2r⟩ := hn2
  have he1l : (0:ℚ) ≤ (n1 - log.timestamp) / (1000 * 60) :=
    div_nonneg (by linarith) (by norm_num)
  have he2l : (0:ℚ) ≤ (n2 - log.timestamp) / (1000 * 60) :=
    div_nonneg (by linarith) (by norm_num)
  have he1r : (n1 - log.timestamp) / (1000 * 60) ≤ P := by
    rw [div_le_iff₀ (by norm_num)]
    linarith
  have he2r : (n2 - log.timestamp) / (1000 * 60) ≤ P := by
    rw [div_le_iff₀ (by norm_num)]
    linarith
  have h12' : (n1 - log.timestamp) / (1000 * 60) ≤ (n2 - log.timestamp) / (1000 * 60) :=
    (div_le_div_iff_of_pos_right (by norm_num)).2 (by linarith)
  rw [getEffectiveness_def log s n1, getEffectiveness_def log s n2, ← hP,
    if_neg (not_lt.2 he1l), if_neg (not_lt.2 he2l), if_pos he1r, if_pos he2r,
    if_pos hpk, if_pos hpk,
    min_eq_left ((div_le_one hpk).2 he1r), min_eq_left ((div_le_one hpk).2 he2r)]
  exact sin_ramp_mono (div_nonneg he1l hpk.le)
    ((div_le_div_iff_of_pos_right hpk).2 h12') ((div_le_one hpk).2 he2r)

theorem getEffectiveness_antitoneOn (log : SubstanceLog) (s : Substance)
    (hpk : 0 < (s.getDosePK log.dosage).peakTime)
    (hhl : 0 < (s.getDosePK log.dosage).halfLife) :
    AntitoneOn (getEffectiveness log s)
      (Set.Ici (log.timestamp + (s.getDosePK log.dosage).peakTime * (1000 * 60))) := by
  set P := (s.getDosePK log.dosage).peakTime with hP
  intro n1 hn1 n2 hn2 h12
  simp only [Set.mem_Ici] at hn1 hn2
  have he1 : P ≤ (n1 - log.timestamp) / (1000 * 60) := by
    rw [le_div_iff₀ (by norm_num)]
    linarith
  have he2 : P ≤ (n2 - log.timestamp) / (1000 * 60) := by
    rw [le_div_iff₀ (by norm_num)]
    linarith
  rcases eq_or_lt_of_le he1 with heq | hlt
  · -- n1 sits exactly at the peak boundary: the ramp value there is 100
    have h100 : getEffectiveness log s n1 = 100 := by
      rw [getEffectiveness_def, ← hP, ← heq,
        if_neg (not_lt.2 hpk.le), if_pos (le_refl _), if_pos hpk,
        div_self (ne_of_gt hpk), min_self]
      exact sin_ramp_one
    rw [h100]
    exact getEffectiveness_le_100 log s n2 hhl
  · have hlt2 : P < (n2 - log.timestamp) / (1000 * 60) := by
      calc P < (n1 - log.timestamp) / (1000 * 60) := hlt
        _ ≤ (n2 - log.timestamp) / (1000 * 60) :=
          (div_le_div_iff_of_pos_right (by norm_num)).2 (by linarith)
    rw [getEffectiveness_def log s n1, getEffectiveness_def log s n2, ← hP,
      if_neg (not_lt.2 (hpk.le.trans hlt.le)), if_neg (not_lt.2 (hpk.le.trans hlt2.le)),
      if_neg (not_le.2 hlt), if_neg (not_le.2 hlt2)]
    apply calculateDecay_antitone (by norm_num) (by exact_mod_cast hhl)
    · have : ((n1 - log.timestamp) / (1000 * 60) - P) / 60 ≤
          ((n2 - log.timestamp) / (1000 * 60) - P) / 60 := by
        apply (div_le_div_iff_of_pos_right (by norm_num)).2
        have := (div_le_div_iff_of_pos_right (show (0:ℚ) < 1000 * 60 by norm_num)).2
          (show n1 - log.timestamp ≤ n2 - log.timestamp by linarith)
        linarith
      exact_mod_cast this
    · have : (0:ℚ) ≤ ((n1 - log.timestamp) / (1000 * 60) - P) / 60 :=
        div_nonneg (by linarith) (by norm_num)
      exact_mod_cast this

-- ── C2: shape of the effectiveness curve ─────────────────────────────────────

/-- The C2 property of one log and substance: effectiveness is 0 up to the
log's timestamp, non-decreasing on the onset ramp, exactly 100 at
`timestamp + peakTime` (ramp and decay agree at the boundary),
non-increasing from the peak on, and always within [0,100]. -/
def C2Prop (log : SubstanceLog) (s : Substance) : Prop :=
  0 < (s.getDosePK log.dosage).halfLife ∧
  (∀ now : ℚ, now ≤ log.timestamp → getEffectiveness log s now = 0) ∧
  MonotoneOn (getEffectiveness log s)
    (Set.Icc log.timestamp
      (log.timestamp + (s.getDosePK log.dosage).peakTime * (1000 * 60))) ∧
  getEffectiveness log s
    (log.timestamp + (s.getDosePK log.dosage).peakTime * (1000 * 60)) = 100 ∧
  AntitoneOn (getEffectiveness log s)
    (Set.Ici (log.timestamp + (s.getDosePK log.dosage).peakTime * (1000 * 60))) ∧
  (∀ now : ℚ, 0 ≤ getEffectiveness log s now ∧ getEffectiveness log s now ≤ 100)

/-- C2: for every catalog substance and every log, the resolved kinetics have
positive half-life and the effectiveness curve has the claimed shape:
0 for `now ≤ timestamp`, non-decreasing on `[timestamp, timestamp+peakTime]`,
exactly 100 at the peak boundary, non-increasing afterwards, always within
[0,100].  (Every catalog substance also resolves a strictly positive peak
time at every dose, which is what makes the 0-at-timestamp and 100-at-peak
statements simultaneously true.) -/
theorem C2_effectiveness_shape : ∀ s ∈ substances, ∀ log : SubstanceLog, C2Prop log s := by
  intro s hs log
  obtain ⟨hhl, hpk, -, -⟩ := getDosePK_facts s hs log.dosage
  exact ⟨hhl,
    fun now h => getEffectiveness_of_le_timestamp log s hpk now h,
    getEffectiveness_monotoneOn log s hpk,
    getEffectiveness_at_peak log s hpk,
    getEffectiveness_antitoneOn log s hpk hhl,
    fun now => ⟨getEffectiveness_nonneg log s now, getEffectiveness_le_100 log s now hhl⟩⟩

/-- C2 witness: a caffeine log of 100 mg at time 0. -/
theorem C2_effectiveness_shape_witness :
    C2Prop ⟨"w2", "caffeine", 100, 0, 74304000⟩ caffeine :=
  C2_effectiveness_shape caffeine (by simp [substances]) _

-- ── C6: tolerance estimation ─────────────────────────────────────────────────

theorem insertLog_perm (x : SubstanceLog) (l : List SubstanceLog) :
    List.Perm (insertLog x l) (x :: l) := by
  induction l with
  | nil => exact List.Perm.refl _
  | cons y ys ih =>
    unfold insertLog
    split_ifs with h
    · exact (ih.cons y).trans (List.Perm.swap x y ys)
    · exact List.Perm.refl _

theorem sortLogs_perm (l : List SubstanceLog) :
    List.Perm (sortLogsByTimestamp l) l := by
  induction l with
  | nil => exact List.Perm.refl _
  | cons x xs ih =>
    exact (insertLog_perm x (sortLogsByTimestamp xs)).trans (ih.cons x)

theorem insertLog_pairwise {x : SubstanceLog} {l : List SubstanceLog}
    (h : l.Pairwise (fun a b => a.timestamp ≤ b.timestamp)) :
    (insertLog x l).Pairwise (fun a b => a.timestamp ≤ b.timestamp) := by
  induction l with
  | nil => simp [insertLog]
  | cons y ys ih =>
    rw [List.pairwise_cons] at h
    obtain ⟨hy, hys⟩ := h
    unfold insertLog
    split_ifs with hlt
    · rw [List.pairwise_cons]
      refine ⟨?_, ih hys⟩
      intro z hz
      rw [(insertLog_perm x ys).mem_iff] at hz
      rcases List.mem_cons.1 hz with rfl | hz
      · exact hlt.le
      · exact hy z hz
    · rw [List.pairwise_cons]
      refine ⟨?_, List.pairwise_cons.2 ⟨hy, hys⟩⟩
      intro z hz
      rcases List.mem_cons.1 hz with rfl | hz
      · exact not_lt.1 hlt
      · exact (not_lt.1 hlt).trans (hy z hz)

theorem sortLogs_pairwise (l : List SubstanceLog) :
    (sortLogsByTimestamp l).Pairwise (fun a b => a.timestamp ≤ b.timestamp) := by
  induction l with
  | nil => simp [sortLogsByTimestamp]
  | cons x xs ih => exact insertLog_pairwise ih

theorem pairwise_le_getLast {l : List SubstanceLog}
    (hp : l.Pairwise (fun a b => a.timestamp ≤ b.timestamp)) (hne : l ≠ []) :
    ∀ z ∈ l, z.timestamp ≤ (l.getLast hne).timestamp := by
  induction l with
  | nil => exact absurd rfl hne
  | cons x xs ih =>
    intro z hz
    rcases List.mem_cons.1 hz with rfl | hz
    · by_cases hxs : xs = []
      · subst hxs
        simp [List.getLast]
      · rw [List.getLast_cons hxs]
        rw [List.pairwise_cons] at hp
        exact hp.1 _ (List.getLast_mem hxs)
    · have hxs : xs ≠ [] := by
        intro h
        subst h
        simp at hz
      rw [List.getLast_cons hxs]
      exact ih (List.pairwise_cons.1 hp).2 hxs z hz

/-- A concrete day-key: UTC calendar day of a unix-ms timestamp.  (The
source's day key is the local-timezone calendar day; `calculateTolerance`
is proved for every day-key function.) -/
def utcDayKey (ts : ℚ) : ℤ := ⌊ts / 86400000⌋

/-- Five nicotine logs on five consecutive UTC days. -/
def c6Logs : List SubstanceLog :=
  [⟨"a", "nicotine", 2, 1000, 9⟩, ⟨"b", "nicotine", 2, 86401000, 9⟩,
   ⟨"c", "nicotine", 2, 172801000, 9⟩, ⟨"d", "nicotine", 2, 259201000, 9⟩,
   ⟨"e", "nicotine", 2, 345601000, 9⟩]

/-- A nicotine log dated one minute in the future of `now = 0`. -/
def c6FutureLog : SubstanceLog := ⟨"f", "nicotine", 2, 60000, 9⟩

/-- C6 counterexample: with `now = 0` and a single nicotine log whose
timestamp lies one minute *after* `now` — hence outside any trailing 7-day
window ending at `now` — the source still counts it (its filter has no upper
bound at `now`) and returns 88, not the claimed 100. -/
theorem C6_counterexample :
    calculateTolerance utcDayKey [c6FutureLog] nicotine 0 = 88 ∧
    ¬((0:ℚ) - 7 * 24 * 60 * 60 * 1000 ≤ c6FutureLog.timestamp ∧
      c6FutureLog.timestamp ≤ 0) ∧
    (88 : ℚ) ≠ 100 := by
  refine ⟨?_, ?_, by norm_num⟩
  · norm_num [calculateTolerance, c6FutureLog, sortLogsByTimestamp, insertLog,
      List.filter, List.dedup, nicotine, r1, lerp, jsRound]
  · norm_num [c6FutureLog]

/-- The C6 property of one call to `calculateTolerance`, with `recent` the
logs of the substance kept by the source's window filter
(`timestamp > now - 7 days`, no upper bound): no kept log gives 100;
otherwise the score is `clamp(100 - distinctDays·toleranceRate, 10, 100)`
with the rate resolved at the dosage of a kept log of maximal timestamp; the
score is always in [10,100] and equals 100 exactly when no log is kept. -/
def C6Prop (dayKey : ℚ → ℤ) (logs : List SubstanceLog) (s : Substance)
    (nowMs : ℚ) : Prop :=
  let recent := logs.filter (fun l => l.substanceId == s.id &&
    decide (nowMs - 7 * 24 * 60 * 60 * 1000 < l.timestamp))
  let tol := calculateTolerance dayKey logs s nowMs
  (recent = [] → tol = 100) ∧
  (recent ≠ [] → ∃ L ∈ recent,
    (∀ l' ∈ recent, l'.timestamp ≤ L.timestamp) ∧
    tol = max (min (100 -
        ((recent.map (fun l => dayKey l.timestamp)).dedup.length : ℚ) *
        (s.getDosePK L.dosage).toleranceRate) 100) 10) ∧
  10 ≤ tol ∧ tol ≤ 100 ∧ (tol = 100 ↔ recent = [])

/-- C6 (amended): the source's in-window filter keeps every log of the
substance with `timestamp > now - 7 days` and has **no upper bound at
`now`** (future-dated logs are counted).  With `recent` those kept logs:
no kept log ⇒ 100; otherwise the score is
`clamp(100 - distinctDays·toleranceRate, 10, 100)`, where `distinctDays`
counts distinct `dayKey` values of the kept logs and the tolerance rate is
resolved at the dosage of a kept log of maximal timestamp; for every catalog
substance the result lies in [10,100] and equals 100 exactly when no log is
kept.  In particular (rate 12, five distinct days): 40. -/
theorem C6_tolerance :
    (∀ (dayKey : ℚ → ℤ) (logs : List SubstanceLog) (s : Substance),
      s ∈ substances → ∀ nowMs : ℚ, C6Prop dayKey logs s nowMs) ∧
    calculateTolerance utcDayKey c6Logs nicotine 432000000 = 40 := by
  constructor
  · intro dayKey logs s hs nowMs
    simp only [C6Prop]
    set recent := logs.filter (fun l => l.substanceId == s.id &&
      decide (nowMs - 7 * 24 * 60 * 60 * 1000 < l.timestamp)) with hrec
    by_cases hempty : recent = []
    · have htol : calculateTolerance dayKey logs s nowMs = 100 := by
        unfold calculateTolerance
        simp only [← hrec, hempty, sortLogsByTimestamp, List.isEmpty_nil, if_true]
      refine ⟨fun _ => htol, fun h => absurd hempty h, ?_, ?_, ?_⟩
      · rw [htol]; norm_num
      · rw [htol]
      · rw [htol]
        exact ⟨fun _ => hempty, fun _ => rfl⟩
    · have hsne : sortLogsByTimestamp recent ≠ [] := by
        intro h
        have hp := sortLogs_perm recent
        rw [h] at hp
        exact hempty hp.symm.eq_nil
      set L := (sortLogsByTimestamp recent).getLast hsne with hL
      have hlast : (sortLogsByTimestamp recent).getLast? = some L :=
        List.getLast?_eq_getLast _ hsne
      set days : ℕ :=
        ((sortLogsByTimestamp recent).map (fun l => dayKey l.timestamp)).dedup.length
        with hdays
      have htol : calculateTolerance dayKey logs s nowMs =
          max (100 - (days : ℚ) * (s.getDosePK L.dosage).toleranceRate) 10 := by
        unfold calculateTolerance
        simp only [← hrec]
        rw [if_neg (by simpa using hsne), hlast]
        simp only [Option.map_some', Option.getD_some]
      have hdayseq : ((recent.map (fun l => dayKey l.timestamp)).dedup.length) = days :=
        (((sortLogs_perm recent).map (fun l => dayKey l.timestamp)).dedup).length_eq.symm
      have hrate : 1 ≤ (s.getDosePK L.dosage).toleranceRate :=
        (getDosePK_facts s hs L.dosage).2.2.2
      have hdays1 : 1 ≤ days := by
        apply List.length_pos.2
        rw [ne_eq, List.dedup_eq_nil, List.map_eq_nil_iff]
        exact hsne
      have hd1 : (1:ℚ) ≤ (days:ℚ) := by exact_mod_cast hdays1
      have hprod : (1:ℚ) ≤ (days : ℚ) * (s.getDosePK L.dosage).toleranceRate := by
        nlinarith
      refine ⟨fun h => absurd h hempty, fun _ => ⟨L, ?_, ?_, ?_⟩, ?_, ?_, ?_, ?_⟩
      · exact (sortLogs_perm recent).mem_iff.1 (List.getLast_mem hsne)
      · intro l' hl'
        exact pairwise_le_getLast (sortLogs_pairwise recent) hsne l'
          ((sortLogs_perm recent).mem_iff.2 hl')
      · rw [htol, hdayseq,
          min_eq_left (show (100:ℚ) - (days:ℚ) *
            (s.getDosePK L.dosage).toleranceRate ≤ 100 by linarith)]
      · rw [htol]
        exact le_max_right _ 10
      · rw [htol]
        exact max_le (by linarith) (by norm_num)
      · intro h100
        exfalso
        rw [htol] at h100
        have hle : max (100 - (days:ℚ) * (s.getDosePK L.dosage).toleranceRate) 10 ≤ 99 :=
          max_le (by linarith) (by norm_num)
        rw [h100] at hle
        norm_num at hle
      · intro h
        exact absurd h hempty
  · norm_num [calculateTolerance, c6Logs, sortLogsByTimestamp, insertLog,
      List.filter, List.dedup, List.elem, nicotine, utcDayKey, Int.floor_eq_iff]

/-- C6 witness: the amended theorem applied at a concrete call (nicotine,
empty history, `now = 0`). -/
theorem C6_tolerance_witness : C6Prop utcDayKey [] nicotine 0 :=
  C6_tolerance.1 utcDayKey [] nicotine (by simp [substances]) 0

-- ── C7: timeline sampling ────────────────────────────────────────────────────

theorem lerp_eval {a b t : ℚ} (h0 : 0 ≤ t) (h1 : t ≤ 1) :
    lerp a b t = a + (b - a) * t := by
  unfold lerp
  rw [min_eq_right h1, max_eq_right h0]

theorem r1_eval {x : ℚ} {n : ℤ} (h1 : (n:ℚ) ≤ x * 10 + 1 / 2)
    (h2 : x * 10 + 1 / 2 < n + 1) : r1 x = (n:ℚ) / 10 := by
  rw [r1, round_eq, Int.floor_eq_iff.mpr ⟨h1, h2⟩]

theorem jsRound_eval {x : ℚ} {n : ℤ} (h1 : (n:ℚ) ≤ x + 1 / 2)
    (h2 : x + 1 / 2 < n + 1) : jsRound x = (n:ℚ) := by
  rw [jsRound, round_eq, Int.floor_eq_iff.mpr ⟨h1, h2⟩]

/-- A caffeine log of 100 mg at time 0 (resolved duration 10.6 h = 636 min,
not a multiple of the 15-minute sampling interval). -/
def c7Log : SubstanceLog := ⟨"t", "caffeine", 100, 0, 74304000⟩

theorem caffeine_duration_100 : (caffeine.getDosePK 100).duration = 53 / 5 := by
  show r1 (r1 (lerp 4.5 6.5 ((100 - 50) / 350)) * 2.2) = 53 / 5
  rw [lerp_eval (by norm_num) (by norm_num),
    show (4.5:ℚ) + (6.5 - 4.5) * ((100 - 50) / 350) = 67 / 14 by norm_num,
    r1_eval (show ((48:ℤ):ℚ) ≤ 67 / 14 * 10 + 1 / 2 by norm_num)
      (show (67:ℚ) / 14 * 10 + 1 / 2 < (48:ℤ) + 1 by norm_num),
    show ((48:ℤ):ℚ) / 10 * 2.2 = 264 / 25 by norm_num,
    r1_eval (show ((106:ℤ):ℚ) ≤ 264 / 25 * 10 + 1 / 2 by norm_num)
      (show (264:ℚ) / 25 * 10 + 1 / 2 < (106:ℤ) + 1 by norm_num)]
  norm_num

/-- C7 counterexample: for the caffeine log at dose 100 (total duration
636 minutes) with the default 15-minute interval, the sampled timestamps are
exactly the 43 multiples `k·900000 ms` for `k = 0 … 42` (last sample at
elapsed 630 min), and the right endpoint `timestamp + 636 min` is **not**
among them — the claimed always-present sample at `elapsed = duration*60`
does not exist. -/
theorem C7_counterexample :
    (caffeine.getDosePK 100).duration * 60 = 636 ∧
    (generateTimeline c7Log caffeine 15).map Prod.fst =
      (List.range 43).map (fun (k : ℕ) => (k : ℚ) * 900000) ∧
    (c7Log.timestamp + 636 * 60 * 1000) ∉
      (List.range 43).map (fun (k : ℕ) => (k : ℚ) * 900000) := by
  have hdur : (caffeine.getDosePK 100).duration * 60 = 636 := by
    rw [caffeine_duration_100]
    norm_num
  refine ⟨hdur, ?_, ?_⟩
  · have hcount : (⌊((caffeine.getDosePK 100).duration * 60) / 15⌋).toNat + 1 = 43 := by
      rw [hdur, show ⌊(636:ℚ) / 15⌋ = 42 from by rw [Int.floor_eq_iff]; norm_num]
      rfl
    simp only [generateTimeline, c7Log]
    rw [if_pos ⟨by norm_num, by rw [hdur]; norm_num⟩, hcount, List.map_map]
    apply List.map_congr_left
    intro k _
    simp only [Function.comp]
    ring
  · intro hmem
    simp only [c7Log, List.mem_map, List.mem_range] at hmem
    obtain ⟨k, -, heq⟩ := hmem
    have h9 : ((900000 * k : ℕ) : ℚ) = 38160000 := by
      push_cast
      linarith
    have h10 : (900000 * k : ℕ) = 38160000 := by exact_mod_cast h9
    omega

/-- The C7 (amended) property of one timeline call: the timeline has exactly
`⌊duration·60 / interval⌋ + 1` samples, the k-th sample is taken at
`timestamp + k·interval minutes` with level `effectiveness` at that instant,
timestamps are strictly increasing, and no sample lies beyond
`timestamp + duration·60 minutes`. -/
def C7Prop (log : SubstanceLog) (s : Substance) (intervalMinutes : ℚ) : Prop :=
  let totalMinutes := (s.getDosePK log.dosage).duration * 60
  let N : ℕ := (⌊totalMinutes / intervalMinutes⌋).toNat
  let tl := generateTimeline log s intervalMinutes
  tl.length = N + 1 ∧
  (∀ k : ℕ, k ≤ N →
    tl[k]? = some
      (log.timestamp + ((k : ℚ) * intervalMinutes) * 60 * 1000,
       getEffectiveness log s
         (log.timestamp + ((k : ℚ) * intervalMinutes) * 60 * 1000))) ∧
  tl.Pairwise (fun p q => p.1 < q.1) ∧
  (∀ p ∈ tl, p.1 ≤ log.timestamp + totalMinutes * 60 * 1000)

/-- C7 (amended): for every catalog substance, every log and every positive
sampling interval, the timeline is the finite ordered sequence of samples at
elapsed minutes `0, i, 2i, …, ⌊duration·60 / i⌋ · i` — inclusive of the left
endpoint 0, with strictly increasing timestamps, each level equal to
`effectiveness` at the sample's timestamp, and no sample beyond
`timestamp + duration·60 minutes`; the right endpoint `duration·60` itself is
sampled only when the interval divides it. -/
theorem C7_timeline :
    ∀ s ∈ substances, ∀ (log : SubstanceLog) (i : ℚ), 0 < i → C7Prop log s i := by
  intro s hs log i hi
  obtain ⟨-, -, hdur, -⟩ := getDosePK_facts s hs log.dosage
  have htot0 : 0 ≤ (s.getDosePK log.dosage).duration * 60 :=
    mul_nonneg hdur.le (by norm_num)
  simp only [C7Prop]
  have htl : generateTimeline log s i =
      (List.range ((⌊(s.getDosePK log.dosage).duration * 60 / i⌋).toNat + 1)).map
        (fun (k : ℕ) =>
          (log.timestamp + ((k : ℚ) * i) * 60 * 1000,
           getEffectiveness log s (log.timestamp + ((k : ℚ) * i) * 60 * 1000))) := by
    simp only [generateTimeline]
    rw [if_pos ⟨hi, htot0⟩]
  have hNle : ∀ k : ℕ, k ≤ (⌊(s.getDosePK log.dosage).duration * 60 / i⌋).toNat →
      (k : ℚ) * i ≤ (s.getDosePK log.dosage).duration * 60 := by
    intro k hk
    have hfl0 : (0:ℤ) ≤ ⌊(s.getDosePK log.dosage).duration * 60 / i⌋ :=
      Int.floor_nonneg.2 (div_nonneg htot0 hi.le)
    have h1 : (k : ℚ) ≤ ((⌊(s.getDosePK log.dosage).duration * 60 / i⌋ : ℤ) : ℚ) := by
      have : (k : ℤ) ≤ ⌊(s.getDosePK log.dosage).duration * 60 / i⌋ := by
        rw [← Int.toNat_of_nonneg hfl0]
        exact_mod_cast hk
      exact_mod_cast this
    have h2 : ((⌊(s.getDosePK log.dosage).duration * 60 / i⌋ : ℤ) : ℚ) ≤
        (s.getDosePK log.dosage).duration * 60 / i := Int.floor_le _
    calc (k : ℚ) * i ≤ ((s.getDosePK log.dosage).duration * 60 / i) * i :=
          mul_le_mul_of_nonneg_right (h1.trans h2) hi.le
      _ = (s.getDosePK log.dosage).duration * 60 := div_mul_cancel₀ _ (ne_of_gt hi)
  refine ⟨?_, ?_, ?_, ?_⟩
  · rw [htl]
    simp
  · intro k hk
    rw [htl]
    rw [List.getElem?_map, List.getElem?_range (Nat.lt_succ_of_le hk)]
    rfl
  · rw [htl]
    apply List.pairwise_map.2
    apply (List.pairwise_lt_range _).imp
    intro a b hab
    have hab' : (a : ℚ) < (b : ℚ) := by exact_mod_cast hab
    have : (a : ℚ) * i < (b : ℚ) * i := mul_lt_mul_of_pos_right hab' hi
    simp only []
    nlinarith
  · intro p hp
    rw [htl] at hp
    simp only [List.mem_map, List.mem_range] at hp
    obtain ⟨k, hk, rfl⟩ := hp
    have := hNle k (Nat.lt_succ_iff.1 hk)
    simp only []
    nlinarith

/-- C7 witness: the amended theorem at the caffeine log and interval 15. -/
theorem C7_timeline_witness : C7Prop c7Log caffeine 15 :=
  C7_timeline caffeine (by simp [substances]) c7Log 15 (by norm_num)

-- ── C8: empty history gives the pure circadian baseline ──────────────────────

/-- With no logs, `recompute` is exactly the circadian reset. -/
theorem recompute_nil (catalog : List Substance) (nowMs hour : ℚ) :
    recompute catalog nowMs hour [] = defaultNeurotransmitters.map (resetNT hour) :=
  rfl

/-- C8: for every `now` and every hour (in particular every h ∈ [0,24)),
`recompute(now, h, [])` returns, system by system against the initial
catalog: currentLevel = circadian(h), status `stable`, and receptor by
receptor sensitivity 100, occupancy = circadian(h) scaled by the receptor's
original baseline occupancy ratio, and no status effects. -/
theorem C8_empty_history_baseline (nowMs hour : ℚ) :
    List.Forall₂ (fun nt base =>
      nt.id = base.id ∧
      nt.currentLevel = ((base.circadianRhythm hour : ℚ) : ℝ) ∧
      nt.status = NTStatus.stable ∧
      List.Forall₂ (fun r br =>
        r.id = br.id ∧
        r.sensitivity = 100 ∧
        r.occupancy = ((base.circadianRhythm hour : ℚ) : ℝ) *
          (br.occupancy / ((base.baselineLevel : ℚ) : ℝ)) ∧
        r.statusEffects = []) nt.receptors base.receptors)
      (recompute substances nowMs hour []) defaultNeurotransmitters := by
  rw [recompute_nil]
  have hrec : ∀ base : Neurotransmitter,
      List.Forall₂ (fun r br =>
        r.id = br.id ∧
        r.sensitivity = 100 ∧
        r.occupancy = ((base.circadianRhythm hour : ℚ) : ℝ) *
          (br.occupancy / ((base.baselineLevel : ℚ) : ℝ)) ∧
        r.statusEffects = []) (resetNT hour base).receptors base.receptors := by
    intro base
    show List.Forall₂ _ (base.receptors.map _) base.receptors
    induction base.receptors with
    | nil => exact List.Forall₂.nil
    | cons r rs ih => exact List.Forall₂.cons ⟨rfl, rfl, rfl, rfl⟩ ih
  induction defaultNeurotransmitters with
  | nil => exact List.Forall₂.nil
  | cons base rest ih => exact List.Forall₂.cons ⟨rfl, rfl, rfl, hrec base⟩ ih

-- ── C9: unknown-substance logs are skipped silently ──────────────────────────

/-- C9: a log whose `substanceId` matches nothing in the catalog is inert:
`recompute` on any history containing it equals `recompute` on the same
history with that log removed. -/
theorem C9_unknown_substance_skipped (nowMs hour : ℚ)
    (pre post : List SubstanceLog) (log : SubstanceLog)
    (h : findSubstance substances log.substanceId = none) :
    recompute substances nowMs hour (pre ++ log :: post) =
      recompute substances nowMs hour (pre ++ post) := by
  have happ : ∀ st, applyLog substances nowMs st log = st := by
    intro st
    unfold applyLog
    rw [h]
  unfold recompute
  rw [List.filter_append, List.filter_append, List.filter_cons]
  by_cases hact : nowMs < log.expectedClearance
  · rw [if_pos (by simpa using hact), List.foldl_append, List.foldl_append,
      List.foldl_cons, happ]
  · rw [if_neg (by simpa using hact)]

/-- A log referencing a substance id absent from the catalog. -/
def c9UnknownLog : SubstanceLog := ⟨"u", "unicorn", 1, 0, 999999999⟩

/-- C9 witness: removing the unknown-substance log leaves the snapshot
unchanged at a concrete time and hour. -/
theorem C9_unknown_substance_skipped_witness :
    recompute substances 5 12 ([] ++ c9UnknownLog :: []) =
      recompute substances 5 12 ([] ++ []) :=
  C9_unknown_substance_skipped 5 12 [] [] c9UnknownLog (by rfl)

-- ── C10: data-model range invariants of recompute ────────────────────────────

theorem adenosineCirc_bounds (h : ℚ) : 0 ≤ adenosineCirc h ∧ adenosineCirc h ≤ 100 := by
  unfold adenosineCirc
  split_ifs with h1
  · norm_num
  · push_neg at h1
    refine ⟨le_min (by nlinarith [h1.2]) (by norm_num), min_le_right _ 100⟩

theorem dopamineCirc_bounds (h : ℚ) : 0 ≤ dopamineCirc h ∧ dopamineCirc h ≤ 100 := by
  unfold dopamineCirc
  split_ifs with h1 h2 h3 h4
  · norm_num
  · constructor <;> nlinarith [h2.1, h2.2]
  · norm_num
  · constructor <;> nlinarith [h4.1, h4.2]
  · push_neg at h1 h2 h3 h4
    have h18 : 18 ≤ h := h4 (h3 (h2 h1.2))
    constructor <;> nlinarith [h1.1]

theorem serotoninCirc_bounds (h : ℚ) : 0 ≤ serotoninCirc h ∧ serotoninCirc h ≤ 100 := by
  unfold serotoninCirc
  split_ifs with h1 h2 h3
  · norm_num
  · constructor <;> nlinarith [h2.1, h2.2]
  · norm_num
  · push_neg at h1 h2 h3
    have h16 : 16 ≤ h := h3 (h2 h1.2)
    constructor <;> nlinarith [h1.1]

theorem gabaCirc_bounds (h : ℚ) : 0 ≤ gabaCirc h ∧ gabaCirc h ≤ 100 := by
  unfold gabaCirc
  split_ifs with h1 h2 h3
  · norm_num
  · constructor <;> nlinarith [h2.1, h2.2]
  · norm_num
  · push_neg at h1 h2 h3
    have h18 : 18 ≤ h := h3 (h2 h1.2)
    constructor <;> nlinarith [h1.1]

/-- Range invariant of one receptor (data model §3). -/
def receptorInv (r : Receptor) : Prop :=
  (20 ≤ r.sensitivity ∧ r.sensitivity ≤ 150) ∧ (0 ≤ r.occupancy ∧ r.occupancy ≤ 100)

/-- Range invariant of one neurotransmitter system (data model §3). -/
def ntInv (nt : Neurotransmitter) : Prop :=
  (0 ≤ nt.currentLevel ∧ nt.currentLevel ≤ 100) ∧ ∀ r ∈ nt.receptors, receptorInv r

theorem occ_bound {c : ℚ} (h0 : 0 ≤ c) (h100 : c ≤ 100) {o b : ℝ}
    (ho : 0 ≤ o) (hob : o ≤ b) (hb : 0 < b) :
    0 ≤ ((c : ℚ) : ℝ) * (o / b) ∧ ((c : ℚ) : ℝ) * (o / b) ≤ 100 := by
  have hc0 : (0:ℝ) ≤ ((c : ℚ) : ℝ) := by exact_mod_cast h0
  have hc1 : ((c : ℚ) : ℝ) ≤ 100 := by exact_mod_cast h100
  have hr0 : 0 ≤ o / b := div_nonneg ho hb.le
  have hr1 : o / b ≤ 1 := (div_le_one hb).2 hob
  exact ⟨mul_nonneg hc0 hr0, by nlinarith⟩

/-- The circadian reset produces states within the data-model ranges. -/
theorem reset_inv (hour : ℚ) :
    ∀ nt ∈ defaultNeurotransmitters.map (resetNT hour), ntInv nt := by
  intro nt hnt
  simp only [defaultNeurotransmitters, List.map_cons, List.map_nil, List.mem_cons,
    List.not_mem_nil, or_false] at hnt
  have hado := adenosineCirc_bounds hour
  have hdop := dopamineCirc_bounds hour
  have hser := serotoninCirc_bounds hour
  have hgab := gabaCirc_bounds hour
  have hcast : ∀ c : ℚ, 0 ≤ c → c ≤ 100 →
      0 ≤ ((c : ℚ) : ℝ) ∧ ((c : ℚ) : ℝ) ≤ 100 := by
    intro c u v
    constructor <;> exact_mod_cast (by assumption)
  rcases hnt with rfl | rfl | rfl | rfl
  · refine ⟨hcast _ hado.1 hado.2, ?_⟩
    intro r hr
    simp only [resetNT, adenosineNT, List.map_cons, List.map_nil, List.mem_cons,
      List.not_mem_nil, or_false] at hr
    rcases hr with rfl | rfl <;>
      exact ⟨⟨by norm_num, by norm_num⟩,
        occ_bound hado.1 hado.2 (by norm_num) (by norm_num) (by norm_num)⟩
  · refine ⟨hcast _ hdop.1 hdop.2, ?_⟩
    intro r hr
    simp only [resetNT, dopamineNT, List.map_cons, List.map_nil, List.mem_cons,
      List.not_mem_nil, or_false] at hr
    rcases hr with rfl | rfl <;>
      exact ⟨⟨by norm_num, by norm_num⟩,
        occ_bound hdop.1 hdop.2 (by norm_num) (by norm_num) (by norm_num)⟩
  · refine ⟨hcast _ hser.1 hser.2, ?_⟩
    intro r hr
    simp only [resetNT, serotoninNT, List.map_cons, List.map_nil, List.mem_cons,
      List.not_mem_nil, or_false] at hr
    rcases hr with rfl | rfl <;>
      exact ⟨⟨by norm_num, by norm_num⟩,
        occ_bound hser.1 hser.2 (by norm_num) (by norm_num) (by norm_num)⟩
  · refine ⟨hcast _ hgab.1 hgab.2, ?_⟩
    intro r hr
    simp only [resetNT, gabaNT, List.map_cons, List.map_nil, List.mem_cons,
      List.not_mem_nil, or_false] at hr
    rcases hr with rfl | rfl <;>
      exact ⟨⟨by norm_num, by norm_num⟩,
        occ_bound hgab.1 hgab.2 (by norm_num) (by norm_num) (by norm_num)⟩

theorem mapGet_getD_nonneg {m : List (String × ℝ)} (hm : ∀ p ∈ m, 0 ≤ p.2)
    (k : String) : 0 ≤ (mapGet m k).getD 0 := by
  unfold mapGet
  cases hfind : m.find? (fun p => p.1 == k) with
  | none => simp
  | some q =>
    simp only [Option.map_some', Option.getD_some]
    exact hm q (List.mem_of_find?_eq_some hfind)

theorem mapGet_some_nonneg {m : List (String × ℝ)} (hm : ∀ p ∈ m, 0 ≤ p.2)
    {k : String} {v : ℝ} (h : mapGet m k = some v) : 0 ≤ v := by
  unfold mapGet at h
  cases hfind : m.find? (fun p => p.1 == k) with
  | none => rw [hfind] at h; simp at h
  | some q =>
    rw [hfind] at h
    simp only [Option.map_some', Option.some_inj] at h
    rw [← h]
    exact hm q (List.mem_of_find?_eq_some hfind)

theorem mapSet_vals_nonneg {m : List (String × ℝ)} (hm : ∀ p ∈ m, 0 ≤ p.2)
    {k : String} {v : ℝ} (hv : 0 ≤ v) :
    ∀ p ∈ mapSet m k v, 0 ≤ p.2 := by
  intro p hp
  unfold mapSet at hp
  split_ifs at hp with hmem
  · rw [List.mem_map] at hp
    obtain ⟨q, hq, hpq⟩ := hp
    by_cases hqk : (q.1 == k) = true
    · rw [if_pos hqk] at hpq
      rw [← hpq]
      exact hv
    · rw [if_neg hqk] at hpq
      rw [← hpq]
      exact hm q hq
  · rw [List.mem_append] at hp
    rcases hp with hp | hp
    · exact hm p hp
    · simp only [List.mem_singleton] at hp
      rw [hp]
      exact hv

/-- All per-receptor impacts computed from nonnegative magnitudes at a
nonnegative effectiveness are nonnegative. -/
theorem calculateReceptorImpact_nonneg {ints : List ReceptorInteraction} {eff : ℝ}
    (heff : 0 ≤ eff) (hmag : ∀ i ∈ ints, 0 ≤ i.magnitude) :
    ∀ p ∈ calculateReceptorImpact ints eff, 0 ≤ p.2 := by
  unfold calculateReceptorImpact
  suffices h : ∀ (l : List ReceptorInteraction), (∀ i ∈ l, 0 ≤ i.magnitude) →
      ∀ (m : List (String × ℝ)), (∀ p ∈ m, 0 ≤ p.2) →
      ∀ p ∈ l.foldl (fun impact i =>
        mapSet impact i.receptorId
          (min ((mapGet impact i.receptorId).getD 0 + (i.magnitude : ℝ) * eff / 100) 100)) m,
        0 ≤ p.2 by
    exact h ints hmag [] (by simp)
  intro l
  induction l with
  | nil =>
    intro _ m hm
    simpa using hm
  | cons i is ih =>
    intro hl m hm
    rw [List.foldl_cons]
    apply ih (fun j hj => hl j (List.mem_cons_of_mem i hj))
    apply mapSet_vals_nonneg hm
    apply le_min _ (by norm_num)
    have h1 : (0:ℝ) ≤ (i.magnitude : ℝ) * eff / 100 := by
      have : (0:ℝ) ≤ (i.magnitude : ℝ) := by
        exact_mod_cast hl i (List.mem_cons_self i is)
      positivity
    have h2 := mapGet_getD_nonneg hm i.receptorId
    linarith

/-- One `ntStep` preserves the level bounds and the receptor invariant of
the walked receptors, given nonnegative impacts. -/
theorem ntStep_inv {s : Substance} {impacts : List (String × ℝ)}
    {log : SubstanceLog} (himp : ∀ p ∈ impacts, 0 ≤ p.2)
    {acc : ℝ × NTStatus × List Receptor} {r : Receptor}
    (hacc : 0 ≤ acc.1 ∧ acc.1 ≤ 100) (haccr : ∀ x ∈ acc.2.2, receptorInv x)
    (hr : receptorInv r) :
    (0 ≤ (ntStep s impacts log acc r).1 ∧ (ntStep s impacts log acc r).1 ≤ 100) ∧
    ∀ x ∈ (ntStep s impacts log acc r).2.2, receptorInv x := by
  have hok : ∀ (r' : Receptor), receptorInv r' →
      ∀ x ∈ acc.2.2 ++ [r'], receptorInv x := by
    intro r' hr' x hx
    rcases List.mem_append.1 hx with hx | hx
    · exact haccr x hx
    · rw [List.mem_singleton] at hx
      rw [hx]
      exact hr'
  unfold ntStep
  cases hg : mapGet impacts r.id with
  | none => exact ⟨hacc, hok _ hr⟩
  | some impact =>
    have himp0 : 0 ≤ impact := mapGet_some_nonneg himp hg
    cases hf : s.receptorInteractions.find? (fun i => i.receptorId == r.id) with
    | none => exact ⟨hacc, hok _ hr⟩
    | some interaction =>
      obtain ⟨rid, nid, ty, mag⟩ := interaction
      cases ty with
      | agonist =>
        dsimp only
        exact ⟨⟨le_min (by nlinarith [hacc.1]) (by norm_num), min_le_right _ _⟩, hok _ hr⟩
      | precursor =>
        dsimp only
        exact ⟨⟨le_min (by nlinarith [hacc.1]) (by norm_num), min_le_right _ _⟩, hok _ hr⟩
      | antagonist =>
        dsimp only
        exact ⟨⟨le_max_right _ _, max_le (by nlinarith [hacc.2]) (by norm_num)⟩, hok _ hr⟩
      | modulation =>
        dsimp only
        exact ⟨⟨le_min (by nlinarith [hacc.1]) (by norm_num), min_le_right _ _⟩, hok _ hr⟩
      | upregulation =>
        dsimp only
        exact ⟨hacc, hok _
          ⟨⟨le_min (by nlinarith [hr.1.1]) (by norm_num), min_le_right _ _⟩, hr.2⟩⟩
      | downregulation =>
        dsimp only
        exact ⟨hacc, hok _
          ⟨⟨le_max_right _ _, max_le (by nlinarith [hr.1.2]) (by norm_num)⟩, hr.2⟩⟩

/-- The whole receptor walk preserves the data-model invariant of one
neurotransmitter. -/
theorem applyImpactsToNT_inv {s : Substance} {impacts : List (String × ℝ)}
    {log : SubstanceLog} {nt : Neurotransmitter}
    (himp : ∀ p ∈ impacts, 0 ≤ p.2) (h : ntInv nt) :
    ntInv (applyImpactsToNT s impacts log nt) := by
  obtain ⟨hlev, hrecs⟩ := h
  have hfold : ∀ (rs : List Receptor), (∀ r ∈ rs, receptorInv r) →
      ∀ (acc : ℝ × NTStatus × List Receptor),
        (0 ≤ acc.1 ∧ acc.1 ≤ 100) → (∀ x ∈ acc.2.2, receptorInv x) →
        (0 ≤ (rs.foldl (ntStep s impacts log) acc).1 ∧
          (rs.foldl (ntStep s impacts log) acc).1 ≤ 100) ∧
        ∀ x ∈ (rs.foldl (ntStep s impacts log) acc).2.2, receptorInv x := by
    intro rs
    induction rs with
    | nil =>
      intro _ acc hacc haccr
      exact ⟨hacc, haccr⟩
    | cons r rest ih =>
      intro hrs acc hacc haccr
      rw [List.foldl_cons]
      obtain ⟨hacc', haccr'⟩ :=
        ntStep_inv himp hacc haccr (hrs r (List.mem_cons_self r rest))
      exact ih (fun x hx => hrs x (List.mem_cons_of_mem r hx)) _ hacc' haccr'
  obtain ⟨h1, h2⟩ := hfold nt.receptors hrecs (nt.currentLevel, nt.status, []) hlev
    (by simp)
  exact ⟨h1, h2⟩

/-- Every catalog interaction magnitude is nonnegative. -/
theorem substances_magnitudes_nonneg :
    ∀ s ∈ substances, ∀ i ∈ s.receptorInteractions, 0 ≤ i.magnitude := by
  intro s hs
  simp only [substances, List.mem_cons, List.not_mem_nil, or_false] at hs
  rcases hs with rfl | rfl | rfl | rfl | rfl | rfl | rfl <;>
  · intro i hi
    simp only [caffeine, lTheanine, nicotine, lTyrosine, flmodafinil, bromantane,
      shilajit, List.mem_cons, List.not_mem_nil, or_false] at hi
    rcases hi with rfl | rfl | rfl <;> norm_num

/-- Applying one log preserves the invariant of every system (the catalog
is `substances`, whose magnitudes are all nonnegative; effectiveness is
always nonnegative). -/
theorem applyLog_inv (nowMs : ℚ) (state : List Neurotransmitter)
    (log : SubstanceLog) (h : ∀ nt ∈ state, ntInv nt) :
    ∀ nt ∈ applyLog substances nowMs state log, ntInv nt := by
  unfold applyLog
  cases hfind : findSubstance substances log.substanceId with
  | none => exact h
  | some s =>
    simp only []
    split_ifs with heff
    · exact h
    · intro nt hnt
      rw [List.mem_map] at hnt
      obtain ⟨nt0, hnt0, rfl⟩ := hnt
      apply applyImpactsToNT_inv _ (h nt0 hnt0)
      apply calculateReceptorImpact_nonneg (getEffectiveness_nonneg log s nowMs)
      exact substances_magnitudes_nonneg s (List.mem_of_find?_eq_some hfind)

/-- C10: for every time, hour and log history, every neurotransmitter in the
snapshot returned by `recompute` over the initial catalog satisfies the
data-model ranges: currentLevel ∈ [0,100], every receptor's sensitivity ∈
[20,150] and occupancy ∈ [0,100]. -/
theorem C10_invariants (nowMs hour : ℚ) (logs : List SubstanceLog) :
    (recompute substances nowMs hour logs).Forall ntInv := by
  rw [List.forall_iff_forall_mem]
  unfold recompute
  have hfold : ∀ (ls : List SubstanceLog) (init : List Neurotransmitter),
      (∀ nt ∈ init, ntInv nt) →
      ∀ nt ∈ ls.foldl (applyLog substances nowMs) init, ntInv nt := by
    intro ls
    induction ls with
    | nil =>
      intro init h
      simpa using h
    | cons l rest ih =>
      intro init h
      rw [List.foldl_cons]
      exact ih _ (applyLog_inv nowMs init l h)
  exact hfold _ _ (reset_inv hour)

-- ── C3: per-substance cap, no joint cap across substances ────────────────────

/-- Hypothetical catalog substance A of the C3 scenario: one agonist
interaction of magnitude 40 on receptor d1, constant kinetics
(peak 45 min, half-life 5 h). -/
def subA : Substance :=
  ⟨"subA", "Substance A", "Stimulant", "mg", [1], ⟨5, 15, 45, 10, 5⟩,
    fun _ => ⟨5, 15, 45, 10, 5⟩, [⟨"d1", "dopamine", .agonist, 40⟩]⟩

/-- Hypothetical catalog substance B of the C3 scenario: one agonist
interaction of magnitude 30 on receptor d1. -/
def subB : Substance :=
  ⟨"subB", "Substance B", "Stimulant", "mg", [1], ⟨5, 15, 45, 10, 5⟩,
    fun _ => ⟨5, 15, 45, 10, 5⟩, [⟨"d1", "dopamine", .agonist, 30⟩]⟩

/-- The two-substance catalog of the C3 scenario (`recompute` takes the
catalog as a parameter; the store instantiates it with `substances`). -/
def c3Catalog : List Substance := [subA, subB]

/-- A dose of substance A logged at `t0`, still active for 10 hours. -/
def c3LogA (t0 : ℚ) : SubstanceLog := ⟨"la", "subA", 1, t0, t0 + 36000000⟩

/-- A dose of substance B logged at `t0`, still active for 10 hours. -/
def c3LogB (t0 : ℚ) : SubstanceLog := ⟨"lb", "subB", 1, t0, t0 + 36000000⟩

/-- Two same-receptor interactions of one substance, for the per-substance
saturation conjunct of C3. -/
def c3CapInteractions : List ReceptorInteraction :=
  [⟨"r", "n", .agonist, 60⟩, ⟨"r", "n", .agonist, 70⟩]

theorem c3EffA (t0 : ℚ) : getEffectiveness (c3LogA t0) subA (t0 + 2700000) = 100 := by
  rw [getEffectiveness_def]
  norm_num [c3LogA, subA, add_sub_cancel_left, Real.sin_pi_div_two]

theorem c3EffB (t0 : ℚ) : getEffectiveness (c3LogB t0) subB (t0 + 2700000) = 100 := by
  rw [getEffectiveness_def]
  norm_num [c3LogB, subB, add_sub_cancel_left, Real.sin_pi_div_two]

theorem c3ImpA : calculateReceptorImpact subA.receptorInteractions 100 = [("d1", 40)] := by
  norm_num [calculateReceptorImpact, subA, mapGet, mapSet, min_def]

theorem c3ImpB : calculateReceptorImpact subB.receptorInteractions 100 = [("d1", 30)] := by
  norm_num [calculateReceptorImpact, subB, mapGet, mapSet, min_def]

/-- Two sequential clamped-at-100 additions collapse to one (for nonnegative
second increment). -/
theorem min_add_min {x a b : ℝ} (hb : 0 ≤ b) :
    min (min (x + a) 100 + b) 100 = min (x + (a + b)) 100 := by
  rcases le_or_lt (x + a) 100 with hc | hc
  · rw [min_eq_left hc]
    ring_nf
  · rw [min_eq_right hc.le, min_eq_right (by linarith), min_eq_right (by linarith)]

/-- `applyImpactsToNT` on a two-receptor system hit by a single d1 agonist
impact `v`: appends the status effect to the d1 receptor, raises the level by
`v·0.3` clamped at 100, sets status `enhanced`, leaves the d2 receptor
untouched. -/
theorem applyImpactsToNT_d1 (s : Substance) (v : ℝ) (m : ℚ) (log : SubstanceLog)
    (nt : Neurotransmitter) (r1 r2 : Receptor)
    (hrecs : nt.receptors = [r1, r2])
    (h1 : r1.id = "d1") (h2 : r2.id = "d2")
    (hint : s.receptorInteractions = [⟨"d1", "dopamine", .agonist, m⟩]) :
    applyImpactsToNT s [("d1", v)] log nt =
      { nt with
        currentLevel := min (nt.currentLevel + v * 0.3) 100,
        status := .enhanced,
        receptors := [{ r1 with
          statusEffects := r1.statusEffects ++
            [⟨.agonist, s.name, v, log.timestamp⟩] }, r2] } := by
  have hstep1 : ntStep s [("d1", v)] log (nt.currentLevel, nt.status, []) r1 =
      (min (nt.currentLevel + v * 0.3) 100, NTStatus.enhanced,
        [{ r1 with
          statusEffects := r1.statusEffects ++
            [⟨InteractionType.agonist, s.name, v, log.timestamp⟩] }]) := by
    unfold ntStep
    rw [show mapGet [("d1", v)] r1.id = some v from by rw [h1]; rfl]
    rw [hint, h1]
    rfl
  have hstep2 : ntStep s [("d1", v)] log
      (min (nt.currentLevel + v * 0.3) 100, NTStatus.enhanced,
        [{ r1 with
          statusEffects := r1.statusEffects ++
            [⟨InteractionType.agonist, s.name, v, log.timestamp⟩] }]) r2 =
      (min (nt.currentLevel + v * 0.3) 100, NTStatus.enhanced,
        [{ r1 with
          statusEffects := r1.statusEffects ++
            [⟨InteractionType.agonist, s.name, v, log.timestamp⟩] }, r2]) := by
    unfold ntStep
    rw [show mapGet [("d1", v)] r2.id = none from by rw [h2]; rfl]
    rfl
  unfold applyImpactsToNT
  rw [hrecs, List.foldl_cons, List.foldl_cons, List.foldl_nil, hstep1, hstep2]

/-- The C3 scenario history reduces to the two impact applications over the
circadian reset. -/
theorem c3_out (t0 h : ℚ) :
    recompute c3Catalog (t0 + 2700000) h [c3LogA t0, c3LogB t0] =
      ((defaultNeurotransmitters.map (resetNT h)).map
        (applyImpactsToNT subA [("d1", 40)] (c3LogA t0))).map
        (applyImpactsToNT subB [("d1", 30)] (c3LogB t0)) := by
  have happA : ∀ st, applyLog c3Catalog (t0 + 2700000) st (c3LogA t0) =
      st.map (applyImpactsToNT subA [("d1", 40)] (c3LogA t0)) := by
    intro st
    unfold applyLog
    rw [show findSubstance c3Catalog (c3LogA t0).substanceId = some subA from rfl]
    simp only [c3EffA]
    rw [if_neg (by norm_num : ¬(100:ℝ) < 1), c3ImpA]
  have happB : ∀ st, applyLog c3Catalog (t0 + 2700000) st (c3LogB t0) =
      st.map (applyImpactsToNT subB [("d1", 30)] (c3LogB t0)) := by
    intro st
    unfold applyLog
    rw [show findSubstance c3Catalog (c3LogB t0).substanceId = some subB from rfl]
    simp only [c3EffB]
    rw [if_neg (by norm_num : ¬(100:ℝ) < 1), c3ImpB]
  unfold recompute
  rw [List.filter_cons, List.filter_cons, List.filter_nil,
    if_pos (show decide (t0 + 2700000 < (c3LogA t0).expectedClearance) = true by
      simp only [c3LogA, decide_eq_true_eq]; linarith),
    if_pos (show decide (t0 + 2700000 < (c3LogB t0).expectedClearance) = true by
      simp only [c3LogB, decide_eq_true_eq]; linarith),
    List.foldl_cons, List.foldl_cons, List.foldl_nil, happA, happB]

/-- C3: receptor impact aggregation scales each interaction magnitude by
`effectiveness/100` (subA at effectiveness 50 yields 20 on d1) and caps the
summed same-receptor contributions of **one** substance at 100 (60 + 70 at
full effectiveness yields 100); across substances there is no joint cap: in
the two-substance scenario (agonist 40 and agonist 30 on d1, both fully
effective), the d1 receptor records exactly two StatusEffect entries and
dopamine's currentLevel is `min(circadian(h) + (40+30)·0.3, 100)` =
`min(circadian(h) + 21, 100)` — 21 above baseline, clamped at 100. -/
theorem C3_cross_substance_aggregation (t0 h : ℚ) :
    mapGet (calculateReceptorImpact subA.receptorInteractions 100) ("d1") = some 40 ∧
    mapGet (calculateReceptorImpact subA.receptorInteractions 50) ("d1") = some 20 ∧
    mapGet (calculateReceptorImpact subB.receptorInteractions 100) ("d1") = some 30 ∧
    mapGet (calculateReceptorImpact c3CapInteractions 100) ("r") = some 100 ∧
    ∃ dop ∈ recompute c3Catalog (t0 + 2700000) h [c3LogA t0, c3LogB t0],
      dop.id = "dopamine" ∧
      dop.currentLevel = min (((dopamineCirc h : ℚ) : ℝ) + 21) 100 ∧
      ∃ r ∈ dop.receptors, r.id = "d1" ∧
        r.statusEffects =
          [⟨.agonist, "Substance A", 40, t0⟩, ⟨.agonist, "Substance B", 30, t0⟩] := by
  refine ⟨by rw [c3ImpA]; norm_num [mapGet], ?_, by rw [c3ImpB]; norm_num [mapGet],
    ?_, ?_⟩
  · norm_num [calculateReceptorImpact, subA, mapGet, mapSet, min_def]
  · norm_num [calculateReceptorImpact, c3CapInteractions, mapGet, mapSet, min_def]
  rw [c3_out]
  obtain ⟨r1, r2, hrecs, h1, h2, hse1⟩ :
      ∃ r1 r2, (resetNT h dopamineNT).receptors = [r1, r2] ∧
        r1.id = "d1" ∧ r2.id = "d2" ∧ r1.statusEffects = [] :=
    ⟨_, _, rfl, rfl, rfl, rfl⟩
  have hA := applyImpactsToNT_d1 subA 40 40 (c3LogA t0) (resetNT h dopamineNT) r1 r2
    hrecs h1 h2 rfl
  obtain ⟨ntA, hntA, hrecsA, hlevA, hidA⟩ :
      ∃ x, applyImpactsToNT subA [("d1", 40)] (c3LogA t0) (resetNT h dopamineNT) = x ∧
        x.receptors = [{ r1 with
          statusEffects := r1.statusEffects ++
            [⟨.agonist, subA.name, 40, (c3LogA t0).timestamp⟩] }, r2] ∧
        x.currentLevel = min (((dopamineCirc h : ℚ) : ℝ) + 40 * 0.3) 100 ∧
        x.id = "dopamine" :=
    ⟨_, hA, rfl, rfl, rfl⟩
  have hB := applyImpactsToNT_d1 subB 30 30 (c3LogB t0) ntA
    ({ r1 with
      statusEffects := r1.statusEffects ++
        [⟨.agonist, subA.name, 40, (c3LogA t0).timestamp⟩] }) r2
    hrecsA h1 h2 rfl
  refine ⟨applyImpactsToNT subB [("d1", 30)] (c3LogB t0) ntA, ?_, ?_, ?_, ?_⟩
  · simp only [defaultNeurotransmitters, List.map_cons, List.map_nil, List.mem_cons]
    rw [hntA]
    simp
  · rw [hB]
    exact hidA
  · rw [hB]
    show min (ntA.currentLevel + 30 * 0.3) 100 = min (((dopamineCirc h : ℚ) : ℝ) + 21) 100
    rw [hlevA, min_add_min (by norm_num)]
    norm_num
  · refine ⟨{ r1 with
      statusEffects := (r1.statusEffects ++
        [⟨.agonist, subA.name, 40, (c3LogA t0).timestamp⟩]) ++
        [⟨.agonist, subB.name, 30, (c3LogB t0).timestamp⟩] }, ?_, ?_, ?_⟩
    · rw [hB]
      exact List.mem_cons_self _ _
    · exact h1
    · show (r1.statusEffects ++ [⟨.agonist, subA.name, 40, (c3LogA t0).timestamp⟩]) ++
        [⟨.agonist, subB.name, 30, (c3LogB t0).timestamp⟩] =
        [⟨.agonist, "Substance A", 40, t0⟩, ⟨.agonist, "Substance B", 30, t0⟩]
      rw [hse1]
      rfl

end NeuroMonitor
